import Mathlib

/-!
# virtual-fido: U2F (CTAP1) and CTAP2 engines, saved state, USB/IP commands

A shallow embedding of `src/u2f.go`, `src/ctap.go`,
`src/virtual_fido/saved_state.go` and `src/virtual_fido/usbip_server.go`.

* Byte strings are lists of naturals, each element standing for one octet.
* A Go panic (explicit `panic`, failed `assert`, `checkErr` on a non-nil error,
  slice index out of range) is the result `none`; a normal return is `some`.
* The device (`Client`), the random source and the library routines the
  handlers call are not part of the files.  They are collected in the
  records `Env`, `StateEnv` and `UsbipEnv`, over arbitrary state types; every
  effectful operation maps a state to a result and a successor state.
* A Go function of result type `(T, error)` returns a `GoResult`.
-/

namespace VirtualFido

/-- A byte string (`[]byte`); every element stands for one octet. -/
abbrev Bytes := List Nat

/-! ## Constants of `u2f.go` -/

/-- `U2F_COMMAND_REGISTER`. -/
def U2F_COMMAND_REGISTER : Nat := 0x01
/-- `U2F_COMMAND_AUTHENTICATE`. -/
def U2F_COMMAND_AUTHENTICATE : Nat := 0x02
/-- `U2F_COMMAND_VERSION`. -/
def U2F_COMMAND_VERSION : Nat := 0x03

/-- `U2F_SW_NO_ERROR`. -/
def U2F_SW_NO_ERROR : Nat := 0x9000
/-- `U2F_SW_CONDITIONS_NOT_SATISFIED`. -/
def U2F_SW_CONDITIONS_NOT_SATISFIED : Nat := 0x6985
/-- `U2F_SW_WRONG_DATA`. -/
def U2F_SW_WRONG_DATA : Nat := 0x6A80
/-- `U2F_SW_WRONG_LENGTH`. -/
def U2F_SW_WRONG_LENGTH : Nat := 0x6700
/-- `U2F_SW_CLA_NOT_SUPPORTED`. -/
def U2F_SW_CLA_NOT_SUPPORTED : Nat := 0x6E00
/-- `U2F_SW_INS_NOT_SUPPORTED`. -/
def U2F_SW_INS_NOT_SUPPORTED : Nat := 0x6D00

/-- `U2F_AUTH_CONTROL_CHECK_ONLY`. -/
def U2F_AUTH_CONTROL_CHECK_ONLY : Nat := 0x07
/-- `U2F_AUTH_CONTROL_ENFORCE_USER_PRESENCE_AND_SIGN`. -/
def U2F_AUTH_CONTROL_ENFORCE_USER_PRESENCE_AND_SIGN : Nat := 0x03
/-- `U2F_AUTH_CONTROL_SIGN`. -/
def U2F_AUTH_CONTROL_SIGN : Nat := 0x08

/-- `U2FMessageHeader`: the four leading octets of an APDU. -/
structure U2FMessageHeader where
  Cla : Nat
  Command : Nat
  Param1 : Nat
  Param2 : Nat
deriving DecidableEq, Repr

/-- `KeyHandle`: the cleartext key handle.  `PrivateKey` is `none` for Go's
`nil` slice, which `handleU2FAuthenticate` tests for. -/
structure KeyHandle where
  PrivateKey : Option Bytes
  ApplicationID : Bytes
deriving DecidableEq, Repr

/-- `ecdsa.PublicKey` on P-256: the affine coordinates. -/
structure PublicKey where
  X : Nat
  Y : Nat
deriving DecidableEq, Repr

/-- `ecdsa.PrivateKey` on P-256: the public point and the scalar. -/
structure PrivateKey where
  PublicKey : PublicKey
  D : Nat
deriving DecidableEq, Repr

/-! ## Constants and types of `ctap.go` -/

/-- `AAGUID`. -/
def AAGUID : Bytes := [117, 108, 90, 245, 236, 166, 1, 163, 47, 198, 211, 12, 226, 242, 1, 197]

/-- `CTAP_COMMAND_MAKE_CREDENTIAL`. -/
def CTAP_COMMAND_MAKE_CREDENTIAL : Nat := 0x01
/-- `CTAP_COMMAND_GET_ASSERTION`. -/
def CTAP_COMMAND_GET_ASSERTION : Nat := 0x02
/-- `CTAP_COMMAND_GET_INFO`. -/
def CTAP_COMMAND_GET_INFO : Nat := 0x04
/-- `CTAP_COMMAND_CLIENT_PIN`. -/
def CTAP_COMMAND_CLIENT_PIN : Nat := 0x06
/-- `CTAP_COMMAND_RESET`. -/
def CTAP_COMMAND_RESET : Nat := 0x07
/-- `CTAP_COMMAND_GET_NEXT_ASSERTION`. -/
def CTAP_COMMAND_GET_NEXT_ASSERTION : Nat := 0x08

/-- `CTAP1_ERR_SUCCESS`. -/
def CTAP1_ERR_SUCCESS : Nat := 0x00
/-- `CTAP1_ERR_INVALID_COMMAND`. -/
def CTAP1_ERR_INVALID_COMMAND : Nat := 0x01
/-- `CTAP2_ERR_UNSUPPORTED_ALGORITHM`. -/
def CTAP2_ERR_UNSUPPORTED_ALGORITHM : Nat := 0x26

/-- `COSE_ALGORITHM_ID_ES256`. -/
def COSE_ALGORITHM_ID_ES256 : Int := -7

/-- `CTAP_AUTH_DATA_FLAG_USER_PRESENT`. -/
def CTAP_AUTH_DATA_FLAG_USER_PRESENT : Nat := 0b00000001
/-- `CTAP_AUTH_DATA_FLAG_USER_VERIFIED`. -/
def CTAP_AUTH_DATA_FLAG_USER_VERIFIED : Nat := 0b00000100
/-- `CTAP_AUTH_DATA_FLAG_ATTESTED_DATA_INCLUDED`. -/
def CTAP_AUTH_DATA_FLAG_ATTESTED_DATA_INCLUDED : Nat := 0b01000000
/-- `CTAP_AUTH_DATA_FLAG_EXTENSION_DATA_INCLUDED`. -/
def CTAP_AUTH_DATA_FLAG_EXTENSION_DATA_INCLUDED : Nat := 0b10000000

/-- `PublicKeyCredentialRpEntity`. -/
structure PublicKeyCredentialRpEntity where
  Id : String
  Name : String
deriving DecidableEq, Repr

/-- `PublicKeyCrendentialUserEntity`. -/
structure PublicKeyCrendentialUserEntity where
  Id : Bytes
  DisplayName : String
  Name : String
deriving DecidableEq, Repr

/-- `PublicKeyCredentialDescriptor`. -/
structure PublicKeyCredentialDescriptor where
  Type_ : String
  Id : Bytes
  Transports : List String
deriving DecidableEq, Repr

/-- `PublicKeyCredentialParams`; `Algorithm` is a `COSEAlgorithmID` (int32). -/
structure PublicKeyCredentialParams where
  Type_ : String
  Algorithm : Int
deriving DecidableEq, Repr

/-- `CTAPMakeCredentialArgsOptions`. -/
structure CTAPMakeCredentialArgsOptions where
  ResidentKey : Bool
  UserVerification : Bool
deriving DecidableEq, Repr

/-- `CTAPMakeCredentialArgs`. -/
structure CTAPMakeCredentialArgs where
  ClientDataHash : Bytes
  Rp : PublicKeyCredentialRpEntity
  User : PublicKeyCrendentialUserEntity
  PubKeyCredParams : List PublicKeyCredentialParams
  ExcludeList : List PublicKeyCredentialDescriptor
  Options : CTAPMakeCredentialArgsOptions
deriving DecidableEq, Repr

/-- The credential source returned by `client.newCredentialSource`; its type
is declared outside the two files, the fields are those of
`SavedCredentialSource` with the private key decoded. -/
structure CredentialSource where
  Type_ : String
  ID : Bytes
  PrivateKey : PrivateKey
  RelyingParty : PublicKeyCredentialRpEntity
  User : PublicKeyCrendentialUserEntity
  SignatureCounter : Int
deriving DecidableEq, Repr

/-- A CBOR data item, the value a Go struct is turned into by its `cbor`
field tags before the library writes it out. -/
inductive Cbor where
  | int (n : Int)
  | bytes (b : Bytes)
  | text (s : String)
  | array (xs : List Cbor)
  | map (kvs : List (Cbor × Cbor))
  | bool (b : Bool)
deriving Repr

/-! ## The environment of the handlers -/

/-- The operations the handlers call that are not in `u2f.go` and `ctap.go`:
the methods of `Client`, the package helper `sign`, the `x509` key codec,
the CBOR and SHA-256 libraries, and what the byte readers do when fewer
bytes remain than were asked for.  `σ` is the state of the world (device
state, random source). -/
structure Env (σ : Type) where
  /-- `client.newPrivateKey()`. -/
  newPrivateKey : σ → PrivateKey × σ
  /-- `client.sealKeyHandle(&handle)`. -/
  sealKeyHandle : KeyHandle → σ → Bytes × σ
  /-- `client.openKeyHandle(bytes)`; reads the device state only. -/
  openKeyHandle : σ → Bytes → KeyHandle
  /-- `client.createAttestationCertificiate(privateKey)`. -/
  createAttestationCertificiate : PrivateKey → σ → Bytes × σ
  /-- `client.newAuthenticationCounterId()`. -/
  newAuthenticationCounterId : σ → Nat × σ
  /-- Package helper `sign(privateKey, data)`. -/
  sign : PrivateKey → Bytes → σ → Bytes × σ
  /-- Library call `x509.MarshalECPrivateKey`; `none` is a non-nil error. -/
  marshalECPrivateKey : PrivateKey → Option Bytes
  /-- Library call `x509.ParseECPrivateKey`; `none` is a non-nil error. -/
  parseECPrivateKey : Bytes → Option PrivateKey
  /-- Result of `read(buffer, n)` when fewer than `n` bytes remain. -/
  readShort : Bytes → Nat → Option (Bytes × Bytes)
  /-- Result of `readBE[T](buffer)` and `readLE[T](buffer)` for a `T` of `n`
  bytes when fewer than `n` bytes remain. -/
  readFixedShort : Bytes → Nat → Option (Bytes × Bytes)
  /-- `client.newCredentialSource(rpId, userId)`. -/
  newCredentialSource : String → Bytes → σ → CredentialSource × σ
  /-- Library call `cbor.Unmarshal(data, &args)` into `CTAPMakeCredentialArgs`;
  `none` is a non-nil error. -/
  unmarshalMakeCredentialArgs : Bytes → Option CTAPMakeCredentialArgs
  /-- Library call `cbor.Marshal`, on the data item of the Go value; `none` is
  a non-nil error. -/
  cborMarshal : Cbor → Option Bytes
  /-- Library call `sha256.Sum256`. -/
  sha256 : Bytes → Bytes
  /-- Library behaviour of the `omitempty` tag on a field of struct type:
  whether a struct all of whose fields are `omitempty` and empty is itself
  left out. -/
  omitEmptyStruct : Bool

/-! ## Helpers of the package that the two files use -/

/-- Modelled from the spec: the helper `flatten` is not in the sources; it
joins byte strings in order. -/
def flatten : List Bytes → Bytes
  | [] => []
  | b :: bs => b ++ flatten bs

/-- Modelled from the spec: the helper `toBE` is not in the sources; the spec
names a big-endian fixed-width integer codec.  `toBE w n` is the `w` octets
of `n`, most significant first. -/
def toBE : Nat → Nat → Bytes
  | 0, _ => []
  | w + 1, n => (n / 256 ^ w) % 256 :: toBE w n

/-- Modelled from the spec: the helper `read` is not in the sources.
`read(buffer, n)` takes the next `n` bytes off the buffer and returns them
with the rest of the buffer; what happens when fewer than `n` bytes remain
is left to the environment. -/
def read {σ : Type} (env : Env σ) (buffer : Bytes) (length : Nat) : Option (Bytes × Bytes) :=
  if length ≤ buffer.length then some (buffer.take length, buffer.drop length)
  else env.readShort buffer length

/-- Modelled from the spec: the fixed-width reader behind `readBE[T]` and
`readLE[T]` is not in the sources.  It takes the `n` bytes of a `T` off the
buffer; what happens when fewer remain is left to the environment. -/
def readFixed {σ : Type} (env : Env σ) (buffer : Bytes) (length : Nat) : Option (Bytes × Bytes) :=
  if length ≤ buffer.length then some (buffer.take length, buffer.drop length)
  else env.readFixedShort buffer length

/-- `readBE[U2FMessageHeader](buffer)`: four one-byte fields in order. -/
def readBEHeader {σ : Type} (env : Env σ) (buffer : Bytes) : Option (U2FMessageHeader × Bytes) :=
  match readFixed env buffer 4 with
  | some ([cla, ins, p1, p2], rest) => some (⟨cla, ins, p1, p2⟩, rest)
  | _ => none

/-- `readBE[uint16](buffer)`: two bytes, most significant first. -/
def readBE16 {σ : Type} (env : Env σ) (buffer : Bytes) : Option (Nat × Bytes) :=
  match readFixed env buffer 2 with
  | some ([hi, lo], rest) => some (hi * 256 + lo, rest)
  | _ => none

/-- `readLE[uint8](buffer)`: one byte. -/
def readLE8 {σ : Type} (env : Env σ) (buffer : Bytes) : Option (Nat × Bytes) :=
  match readFixed env buffer 1 with
  | some ([b], rest) => some (b, rest)
  | _ => none

/-- Library call `big.Int.FillBytes` on a buffer of `width` bytes: the value
big-endian, zero-extended; it panics when the value does not fit. -/
def fillBytes (width x : Nat) : Option Bytes :=
  if x < 256 ^ width then some (toBE width x) else none

/-- Library call `elliptic.Marshal(elliptic.P256(), X, Y)`: the uncompressed
point encoding `04 | X(32) | Y(32)`. -/
def ellipticMarshal (pub : PublicKey) : Option Bytes :=
  match fillBytes 32 pub.X, fillBytes 32 pub.Y with
  | some x, some y => some (4 :: (x ++ y))
  | _, _ => none

/-- The bytes of the Go string literal `"U2F_V2"`. -/
def u2fVersionString : Bytes := "U2F_V2".toList.map Char.toNat

/-! ## `u2f.go` -/

/-- `decodeU2FMessage`: header, request data and expected response length
of an APDU. -/
def decodeU2FMessage {σ : Type} (env : Env σ) (messageBytes : Bytes) :
    Option (U2FMessageHeader × Bytes × Nat) :=
  match readBEHeader env messageBytes with
  | none => none
  | some (header, b1) =>
    if b1.length = 0 then some (header, [], 0)
    else
      match read env b1 1 with
      | none => none
      | some (first, b2) =>
        match first with
        | [] => none
        | z :: _ =>
          if z ≠ 0 then none
          else
            match readBE16 env b2 with
            | none => none
            | some (length, b3) =>
              if b3.length = 0 then some (header, [], length)
              else
                match read env b3 length with
                | none => none
                | some (request, b4) =>
                  if b4.length = 0 then some (header, request, 0)
                  else
                    match readBE16 env b4 with
                    | none => none
                    | some (responseLength, _) => some (header, request, responseLength)

/-- `U2FServer.handleU2FRegister`. -/
def handleU2FRegister {σ : Type} (env : Env σ) (_header : U2FMessageHeader) (request : Bytes)
    (s : σ) : Option (Bytes × σ) :=
  if request.length < 32 then none
  else
    let challenge := request.take 32
    let application := request.drop 32
    if challenge.length ≠ 32 then none
    else if application.length ≠ 32 then none
    else
      let (privateKey, s1) := env.newPrivateKey s
      match ellipticMarshal privateKey.PublicKey with
      | none => none
      | some encodedPublicKey =>
        match env.marshalECPrivateKey privateKey with
        | none => none
        | some encodedPrivateKey =>
          let unencryptedKeyHandle : KeyHandle := ⟨some encodedPrivateKey, application⟩
          let (keyHandle, s2) := env.sealKeyHandle unencryptedKeyHandle s1
          let (cert, s3) := env.createAttestationCertificiate privateKey s2
          let signatureDataBytes := flatten [[0], application, challenge, keyHandle, encodedPublicKey]
          let (signature, s4) := env.sign privateKey signatureDataBytes s3
          some (flatten [[0x05], encodedPublicKey, [keyHandle.length % 256], keyHandle, cert,
            signature, toBE 2 U2F_SW_NO_ERROR], s4)

/-- `U2FServer.handleU2FAuthenticate`. -/
def handleU2FAuthenticate {σ : Type} (env : Env σ) (header : U2FMessageHeader) (request : Bytes)
    (s : σ) : Option (Bytes × σ) :=
  let control := header.Param1
  match read env request 32 with
  | none => none
  | some (challenge, r1) =>
    match read env r1 32 with
    | none => none
    | some (application, r2) =>
      match readLE8 env r2 with
      | none => none
      | some (keyHandleLength, r3) =>
        match read env r3 keyHandleLength with
        | none => none
        | some (encryptedKeyHandleBytes, _) =>
          let keyHandle := env.openKeyHandle s encryptedKeyHandleBytes
          match keyHandle.PrivateKey with
          | none => some (flatten [toBE 2 U2F_SW_WRONG_DATA], s)
          | some encodedPrivateKey =>
            if keyHandle.ApplicationID ≠ application then
              some (flatten [toBE 2 U2F_SW_WRONG_DATA], s)
            else
              match env.parseECPrivateKey encodedPrivateKey with
              | none => none
              | some privateKey =>
                if control = U2F_AUTH_CONTROL_CHECK_ONLY then
                  some (flatten [toBE 2 U2F_SW_CONDITIONS_NOT_SATISFIED], s)
                else
                  let (counter, s1) := env.newAuthenticationCounterId s
                  let signatureDataBytes := flatten [application, [1], toBE 4 counter, challenge]
                  let (signature, s2) := env.sign privateKey signatureDataBytes s1
                  some (flatten [[1], toBE 4 counter, signature, toBE 2 U2F_SW_NO_ERROR], s2)

/-- `U2FServer.handleU2FMessage`. -/
def handleU2FMessage {σ : Type} (env : Env σ) (message : Bytes) (s : σ) : Option (Bytes × σ) :=
  match decodeU2FMessage env message with
  | none => none
  | some (header, request, _responseLength) =>
    if header.Command = U2F_COMMAND_VERSION then
      some (u2fVersionString ++ toBE 2 U2F_SW_NO_ERROR, s)
    else if header.Command = U2F_COMMAND_REGISTER then
      handleU2FRegister env header request s
    else if header.Command = U2F_COMMAND_AUTHENTICATE then
      handleU2FAuthenticate env header request s
    else none

/-! ## `ctap.go` -/

/-- Library call `big.Int.Bytes`, counting down on `fuel`: the big-endian
bytes of `n` in front of `acc`, without leading zero bytes. -/
def bigIntBytesAux : Nat → Nat → Bytes → Bytes
  | 0, _, acc => acc
  | fuel + 1, n, acc => if n = 0 then acc else bigIntBytesAux fuel (n / 256) (n % 256 :: acc)

/-- Library call `big.Int.Bytes`: the minimal big-endian byte string of a
natural number (empty for zero). -/
def bigIntBytes (n : Nat) : Bytes := bigIntBytesAux n n []

/-- The Go conversion `[]byte(s)`: the UTF-8 bytes of a string. -/
def stringBytes (s : String) : Bytes :=
  s.data.flatMap (fun c => (String.utf8EncodeChar c).map UInt8.toNat)

/-- `CTAPCOSEPublicKey`. -/
structure CTAPCOSEPublicKey where
  Kty : Int
  Alg : Int
  Crv : Int
  X : Bytes
  Y : Bytes
deriving DecidableEq, Repr

/-- The data item of a `CTAPCOSEPublicKey`, by its `keyasint` field tags. -/
def CTAPCOSEPublicKey.toCbor (key : CTAPCOSEPublicKey) : Cbor :=
  Cbor.map [(Cbor.int 1, Cbor.int key.Kty), (Cbor.int 3, Cbor.int key.Alg),
    (Cbor.int (-1), Cbor.int key.Crv), (Cbor.int (-2), Cbor.bytes key.X),
    (Cbor.int (-3), Cbor.bytes key.Y)]

/-- `ctapEncodeKeyAsCOSE`. -/
def ctapEncodeKeyAsCOSE {σ : Type} (env : Env σ) (publicKey : PublicKey) : Option Bytes :=
  let key : CTAPCOSEPublicKey :=
    { Kty := 2
      Alg := COSE_ALGORITHM_ID_ES256
      Crv := 1
      X := bigIntBytes publicKey.X
      Y := bigIntBytes publicKey.Y }
  env.cborMarshal key.toCbor

/-- `CTAPMakeCredentialReponse`. -/
structure CTAPMakeCredentialReponse where
  FormatIdentifer : String
  AuthData : Bytes
  AttestationStatement : List (Cbor × Cbor)

/-- The data item of a `CTAPMakeCredentialReponse`, by its `keyasint` field
tags. -/
def CTAPMakeCredentialReponse.toCbor (r : CTAPMakeCredentialReponse) : Cbor :=
  Cbor.map [(Cbor.int 1, Cbor.text r.FormatIdentifer), (Cbor.int 2, Cbor.bytes r.AuthData),
    (Cbor.int 3, Cbor.map r.AttestationStatement)]

/-- The loop of `handleMakeCredential` over `args.PubKeyCredParams` that sets
`supported`. -/
def supportedAlgorithm (params : List PublicKeyCredentialParams) : Bool :=
  params.foldl
    (fun supported param =>
      if param.Algorithm = COSE_ALGORITHM_ID_ES256 ∧ param.Type_ = "public-key" then true
      else supported)
    false

/-- `CTAPServer.handleMakeCredential`. -/
def handleMakeCredential {σ : Type} (env : Env σ) (data : Bytes) (s : σ) : Option (Bytes × σ) :=
  match env.unmarshalMakeCredentialArgs data with
  | none => none
  | some args =>
    let supported := supportedAlgorithm args.PubKeyCredParams
    if !supported then some ([CTAP2_ERR_UNSUPPORTED_ALGORITHM], s)
    else
      let (credentialSource, s1) := env.newCredentialSource args.Rp.Id args.User.Id s
      match ctapEncodeKeyAsCOSE env credentialSource.PrivateKey.PublicKey with
      | none => none
      | some encodedCredentialPublicKey =>
        let attestedCredentialData := flatten [AAGUID, toBE 2 (credentialSource.ID.length % 65536),
          credentialSource.ID, encodedCredentialPublicKey]
        let rpIdHash := env.sha256 (stringBytes args.Rp.Id)
        let flags := CTAP_AUTH_DATA_FLAG_USER_PRESENT ||| CTAP_AUTH_DATA_FLAG_USER_VERIFIED |||
          CTAP_AUTH_DATA_FLAG_ATTESTED_DATA_INCLUDED
        let authenticatorData := flatten [rpIdHash, [flags],
          toBE 4 (credentialSource.SignatureCounter % 2 ^ 32).toNat, attestedCredentialData]
        let response : CTAPMakeCredentialReponse :=
          { AuthData := authenticatorData
            FormatIdentifer := "none"
            AttestationStatement := [] }
        match env.cborMarshal response.toCbor with
        | none => none
        | some responseBytes => some (CTAP1_ERR_SUCCESS :: responseBytes, s1)

/-- `CTAPGetInfoOptions`. -/
structure CTAPGetInfoOptions where
  IsPlatform : Bool
  CanResidentKey : Bool
  CanClientPin : Bool
  CanUserPresence : Bool
  CanUserVerification : Bool
deriving DecidableEq, Repr

/-- `CTAPGetInfoResponse`. -/
structure CTAPGetInfoResponse where
  Versions : List String
  Extensions : List String
  AAGUID : Bytes
  Options : CTAPGetInfoOptions
  MaxMessageSize : Nat
  PinProtocols : List Nat
deriving DecidableEq, Repr

/-- One boolean field tagged `omitempty`: present only when true. -/
def omitEmptyBool (name : String) (value : Bool) : List (Cbor × Cbor) :=
  if value then [(Cbor.text name, Cbor.bool true)] else []

/-- The data item of a `CTAPGetInfoOptions`, by its field tags: every field
is `omitempty`. -/
def CTAPGetInfoOptions.toCbor (o : CTAPGetInfoOptions) : Cbor :=
  Cbor.map (omitEmptyBool "plat" o.IsPlatform ++ omitEmptyBool "rk" o.CanResidentKey ++
    omitEmptyBool "clientPin" o.CanClientPin ++ omitEmptyBool "up" o.CanUserPresence ++
    omitEmptyBool "uv" o.CanUserVerification)

/-- A `CTAPGetInfoOptions` all of whose fields are empty. -/
def CTAPGetInfoOptions.isEmpty (o : CTAPGetInfoOptions) : Bool :=
  !o.IsPlatform && !o.CanResidentKey && !o.CanClientPin && !o.CanUserPresence &&
    !o.CanUserVerification

/-- The data item of a `CTAPGetInfoResponse`, by its field tags
(`keyasint,omitempty` on every field; the 16-byte array is never empty). -/
def CTAPGetInfoResponse.toCbor (omitEmptyStruct : Bool) (r : CTAPGetInfoResponse) : Cbor :=
  Cbor.map (
    (if r.Versions.isEmpty then [] else [(Cbor.int 1, Cbor.array (r.Versions.map Cbor.text))]) ++
    (if r.Extensions.isEmpty then []
      else [(Cbor.int 2, Cbor.array (r.Extensions.map Cbor.text))]) ++
    [(Cbor.int 3, Cbor.bytes r.AAGUID)] ++
    (if omitEmptyStruct && r.Options.isEmpty then [] else [(Cbor.int 4, r.Options.toCbor)]) ++
    (if r.MaxMessageSize = 0 then [] else [(Cbor.int 5, Cbor.int r.MaxMessageSize)]) ++
    (if r.PinProtocols.isEmpty then []
      else [(Cbor.int 6, Cbor.array (r.PinProtocols.map (fun n => Cbor.int n)))]))

/-- The struct literal of `handleGetInfo`: only `Versions` and `AAGUID` are
set, the other fields have their zero value. -/
def getInfoResponse : CTAPGetInfoResponse :=
  { Versions := ["FIDO_2_0", "U2F_V2"]
    Extensions := []
    AAGUID := AAGUID
    Options := ⟨false, false, false, false, false⟩
    MaxMessageSize := 0
    PinProtocols := [] }

/-- `CTAPServer.handleGetInfo`. -/
def handleGetInfo {σ : Type} (env : Env σ) (_data : Bytes) (s : σ) : Option (Bytes × σ) :=
  let response := getInfoResponse
  match env.cborMarshal (response.toCbor env.omitEmptyStruct) with
  | none => none
  | some responseBytes => some (CTAP1_ERR_SUCCESS :: responseBytes, s)

/-- `CTAPServer.handleMessage`. -/
def handleMessage {σ : Type} (env : Env σ) (data : Bytes) (s : σ) : Option (Bytes × σ) :=
  match data with
  | [] => none
  | command :: rest =>
    if command = CTAP_COMMAND_MAKE_CREDENTIAL then handleMakeCredential env rest s
    else if command = CTAP_COMMAND_GET_INFO then handleGetInfo env rest s
    else none

/-- The four shapes of a well-formed APDU with header `h`, request data `d`
and expected response length `le` (section 4.D of the design). -/
def IsAPDU (h : U2FMessageHeader) (d : Bytes) (le : Nat) (m : Bytes) : Prop :=
  d.length ≤ 65535 ∧ le < 65536 ∧
  ((d = [] ∧ le = 0 ∧ m = [h.Cla, h.Command, h.Param1, h.Param2]) ∨
   (d = [] ∧ m = [h.Cla, h.Command, h.Param1, h.Param2] ++ 0 :: toBE 2 le) ∨
   (d ≠ [] ∧ le = 0 ∧ m = [h.Cla, h.Command, h.Param1, h.Param2] ++ 0 :: toBE 2 d.length ++ d) ∨
   (m = [h.Cla, h.Command, h.Param1, h.Param2] ++ 0 :: toBE 2 d.length ++ d ++ toBE 2 le))

/-! ## `virtual_fido/saved_state.go` -/

/-- `SavedCredentialSource`. -/
structure SavedCredentialSource where
  Type_ : String
  ID : Bytes
  PrivateKey : Bytes
  RelyingParty : PublicKeyCredentialRpEntity
  User : PublicKeyCrendentialUserEntity
  SignatureCounter : Int
deriving DecidableEq, Repr

/-- `FIDODeviceConfig`. -/
structure FIDODeviceConfig where
  EncryptionKey : Bytes
  AttestationCertificate : Bytes
  AttestationPrivateKey : Bytes
  AuthenticationCounter : Nat
  PINHash : Bytes
  Sources : List SavedCredentialSource
deriving DecidableEq, Repr

/-- `PassphraseEncryptedBlob`. -/
structure PassphraseEncryptedBlob where
  Salt : Bytes
  EncryptionKey : Bytes
  KeyNonce : Bytes
  EncryptedData : Bytes
  DataNonce : Bytes
deriving DecidableEq, Repr

/-- The outcome of a Go function of result type `(T, error)`: a value with
a nil error, a nil value with an error (the texts of the `fmt.Errorf`
wrappers, outermost first), or a panic. -/
inductive GoResult (α : Type) where
  | ok (value : α)
  | error (messages : List String)
  | panic
deriving DecidableEq, Repr

/-- The operations `saved_state.go` calls that are not in the file: the
package helpers `encrypt` and `decrypt`, the random reader, and the scrypt
and JSON libraries.  `ρ` is the state of the random source; `none` is a
non-nil error. -/
structure StateEnv (ρ : Type) where
  /-- `read(rand.Reader, n)`. -/
  randomBytes : Nat → ρ → Bytes × ρ
  /-- Library call `scrypt.Key(password, salt, N, r, p, keyLen)`. -/
  scryptKey : Bytes → Bytes → Nat → Nat → Nat → Nat → Option Bytes
  /-- Package helper `encrypt(key, data)`: ciphertext and fresh nonce. -/
  encrypt : Bytes → Bytes → ρ → Option (Bytes × Bytes) × ρ
  /-- Package helper `decrypt(key, data, nonce)`. -/
  decrypt : Bytes → Bytes → Bytes → Option Bytes
  /-- Library call `json.Marshal` on a `FIDODeviceConfig`. -/
  marshalConfig : FIDODeviceConfig → Option Bytes
  /-- Library call `json.Unmarshal` into a `FIDODeviceConfig`. -/
  unmarshalConfig : Bytes → Option FIDODeviceConfig
  /-- Library call `json.Marshal` on a `PassphraseEncryptedBlob`. -/
  marshalBlob : PassphraseEncryptedBlob → Option Bytes
  /-- Library call `json.Unmarshal` into a `PassphraseEncryptedBlob`. -/
  unmarshalBlob : Bytes → Option PassphraseEncryptedBlob

/-- `encryptPassphraseBlob`. -/
def encryptPassphraseBlob {ρ : Type} (env : StateEnv ρ) (passphrase : String) (data : Bytes)
    (r : ρ) : GoResult PassphraseEncryptedBlob × ρ :=
  let (salt, r1) := env.randomBytes 16 r
  match env.scryptKey (stringBytes passphrase) salt 32768 8 1 32 with
  | none => (GoResult.error ["Could not create key encryption key"], r1)
  | some keyEncryptionKey =>
    let (encryptionKey, r2) := env.randomBytes 32 r1
    match env.encrypt keyEncryptionKey encryptionKey r2 with
    | (none, r3) => (GoResult.error ["Could not encrypt key"], r3)
    | (some (encryptedKey, keyNonce), r3) =>
      match env.encrypt encryptionKey data r3 with
      | (none, r4) => (GoResult.error ["Could not encrypt data"], r4)
      | (some (encryptedData, dataNonce), r4) =>
        (GoResult.ok
          { Salt := salt
            EncryptionKey := encryptedKey
            KeyNonce := keyNonce
            EncryptedData := encryptedData
            DataNonce := dataNonce }, r4)

/-- `decryptPassphraseBlob`. -/
def decryptPassphraseBlob {ρ : Type} (env : StateEnv ρ) (passphrase : String)
    (blob : PassphraseEncryptedBlob) : GoResult Bytes :=
  match env.scryptKey (stringBytes passphrase) blob.Salt 32768 8 1 32 with
  | none => GoResult.panic
  | some keyEncryptionKey =>
    match env.decrypt keyEncryptionKey blob.EncryptionKey blob.KeyNonce with
    | none => GoResult.error ["Could not decrypt encryption key"]
    | some encryptionKey =>
      match env.decrypt encryptionKey blob.EncryptedData blob.DataNonce with
      | none => GoResult.error ["Could not decrypt data"]
      | some data => GoResult.ok data

/-- `EncryptWithPassphrase`. -/
def EncryptWithPassphrase {ρ : Type} (env : StateEnv ρ) (savedState : FIDODeviceConfig)
    (passphrase : String) (r : ρ) : GoResult Bytes × ρ :=
  match env.marshalConfig savedState with
  | none => (GoResult.error ["Could not encode JSON"], r)
  | some stateBytes =>
    match encryptPassphraseBlob env passphrase stateBytes r with
    | (GoResult.panic, r1) => (GoResult.panic, r1)
    | (GoResult.error messages, r1) => (GoResult.error ("Could not encrypt data" :: messages), r1)
    | (GoResult.ok blob, r1) =>
      match env.marshalBlob blob with
      | none => (GoResult.error ["Could not encode JSON"], r1)
      | some output => (GoResult.ok output, r1)

/-- `DecryptWithPassphrase`. -/
def DecryptWithPassphrase {ρ : Type} (env : StateEnv ρ) (data : Bytes) (passphrase : String) :
    GoResult FIDODeviceConfig :=
  match env.unmarshalBlob data with
  | none => GoResult.error ["Could not decode JSON"]
  | some blob =>
    match decryptPassphraseBlob env passphrase blob with
    | GoResult.panic => GoResult.panic
    | GoResult.error messages => GoResult.error ("Could not decrypt data" :: messages)
    | GoResult.ok stateBytes =>
      match env.unmarshalConfig stateBytes with
      | none => GoResult.error ["Could not decode JSON"]
      | some state => GoResult.ok state

/-! ## `virtual_fido/usbip_server.go` -/

/-- `syscall.ECONNRESET` (Linux). -/
def ECONNRESET : Int := 104
/-- `syscall.ENOENT`. -/
def ENOENT : Int := 2

/-- Modelled from the spec: the type `usbipMessageHeader` is declared outside
the sources; the spec lists `command, seq, devid, direction, endpoint` and
the file names the fields. -/
structure usbipMessageHeader where
  Command : Nat
  SequenceNumber : Nat
  DeviceId : Nat
  Direction : Nat
  Endpoint : Nat
deriving DecidableEq, Repr

/-- Modelled from the spec: the type `usbipCommandSubmitBody` is declared
outside the sources; the spec lists `transfer_flags, transfer_buffer_length,
start_frame, number_of_packets, interval, setup(8)`. -/
structure usbipCommandSubmitBody where
  TransferFlags : Nat
  TransferBufferLength : Nat
  StartFrame : Nat
  NumberOfPackets : Nat
  Interval : Nat
  SetupBytes : Bytes
deriving DecidableEq, Repr

/-- Modelled from the spec: the type `usbipCommandUnlinkBody` is declared
outside the sources; the file reads its field `UnlinkSequenceNumber`. -/
structure usbipCommandUnlinkBody where
  UnlinkSequenceNumber : Nat
deriving DecidableEq, Repr

/-- The type `usbipReturnSubmitBody`, declared outside the sources; the
fields are those of the struct literal in `handleCommandSubmit`. -/
structure usbipReturnSubmitBody where
  Status : Int
  ActualLength : Nat
  StartFrame : Nat
  NumberOfPackets : Nat
  ErrorCount : Nat
  Padding : Nat
deriving DecidableEq, Repr

/-- The type `usbipReturnUnlinkBody`, declared outside the sources; the
fields are those of the struct literal in `handleCommandUnlink`. -/
structure usbipReturnUnlinkBody where
  Status : Int
  Padding : Bytes
deriving DecidableEq, Repr

/-- One `write` on the connection: the value whose big-endian form is
written, or a raw buffer. -/
inductive Written where
  | messageHeader (h : usbipMessageHeader)
  | returnSubmitBody (b : usbipReturnSubmitBody)
  | returnUnlinkBody (b : usbipReturnUnlinkBody)
  | buffer (b : Bytes)
deriving DecidableEq, Repr

/-- The world of the USB/IP server: what is left to read on the connection
(`κ`), the writes made on it so far, and the device (`δ`). -/
structure UsbipWorld (κ δ : Type) where
  conn : κ
  written : List Written
  device : δ
deriving DecidableEq, Repr

/-- What `usbip_server.go` uses that is not in the file: the protocol
constants, the readers of the connection, and the device.  `none` is a
panic. -/
structure UsbipEnv (κ δ : Type) where
  usbip_COMMAND_SUBMIT : Nat
  usbip_COMMAND_UNLINK : Nat
  usbip_COMMAND_RET_SUBMIT : Nat
  usbip_COMMAND_RET_UNLINK : Nat
  usbip_DIR_OUT : Nat
  usbip_DIR_IN : Nat
  /-- `readBE[usbipMessageHeader](*conn)`. -/
  readMessageHeader : κ → Option (usbipMessageHeader × κ)
  /-- `readBE[usbipCommandSubmitBody](*conn)`. -/
  readCommandSubmitBody : κ → Option (usbipCommandSubmitBody × κ)
  /-- `readBE[usbipCommandUnlinkBody](*conn)`. -/
  readCommandUnlinkBody : κ → Option (usbipCommandUnlinkBody × κ)
  /-- `(*conn).Read(buffer)` followed by `checkErr`: the buffer afterwards. -/
  connRead : Bytes → κ → Option (Bytes × κ)
  /-- `command.Setup()`. -/
  setup : usbipCommandSubmitBody → Bytes
  /-- `device.removeWaitingRequest(seq)`. -/
  removeWaitingRequest : Nat → δ → Bool × δ
  /-- `device.handleMessage(seq, onReturn, endpoint, setup, transferBuffer)`;
  the callback is given as the writes it makes for the contents the transfer
  buffer has when it is invoked. -/
  deviceHandleMessage : Nat → (Bytes → List Written) → Nat → Bytes → Bytes →
    UsbipWorld κ δ → UsbipWorld κ δ

/-- The closure `onReturnSubmit` of `handleCommandSubmit`: the writes of one
invocation, for the contents `transferBuffer` has at that time. -/
def onReturnSubmit {κ δ : Type} (env : UsbipEnv κ δ) (header : usbipMessageHeader)
    (transferBuffer : Bytes) : List Written :=
  let replyHeader : usbipMessageHeader :=
    { Command := env.usbip_COMMAND_RET_SUBMIT
      SequenceNumber := header.SequenceNumber
      DeviceId := header.DeviceId
      Direction := env.usbip_DIR_OUT
      Endpoint := header.Endpoint }
  let replyBody : usbipReturnSubmitBody :=
    { Status := 0
      ActualLength := transferBuffer.length % 2 ^ 32
      StartFrame := 0
      NumberOfPackets := 0
      ErrorCount := 0
      Padding := 0 }
  [Written.messageHeader replyHeader, Written.returnSubmitBody replyBody] ++
    (if header.Direction = env.usbip_DIR_IN then [Written.buffer transferBuffer] else [])

/-- `usbIPServer.handleCommandSubmit`. -/
def handleCommandSubmit {κ δ : Type} (env : UsbipEnv κ δ) (header : usbipMessageHeader)
    (w : UsbipWorld κ δ) : Option (UsbipWorld κ δ) :=
  match env.readCommandSubmitBody w.conn with
  | none => none
  | some (command, conn1) =>
    let setup := env.setup command
    let transferBuffer := List.replicate command.TransferBufferLength 0
    let afterRead :=
      if header.Direction = env.usbip_DIR_OUT ∧ command.TransferBufferLength > 0 then
        env.connRead transferBuffer conn1
      else some (transferBuffer, conn1)
    match afterRead with
    | none => none
    | some (transferBuffer, conn2) =>
      some (env.deviceHandleMessage header.SequenceNumber (onReturnSubmit env header)
        header.Endpoint setup transferBuffer { w with conn := conn2 })

/-- `usbIPServer.handleCommandUnlink`. -/
def handleCommandUnlink {κ δ : Type} (env : UsbipEnv κ δ) (header : usbipMessageHeader)
    (w : UsbipWorld κ δ) : Option (UsbipWorld κ δ) :=
  match env.readCommandUnlinkBody w.conn with
  | none => none
  | some (unlink, conn1) =>
    let (removed, device1) := env.removeWaitingRequest unlink.UnlinkSequenceNumber w.device
    let status : Int := if removed then -ECONNRESET else -ENOENT
    let replyHeader : usbipMessageHeader :=
      { Command := env.usbip_COMMAND_RET_UNLINK
        SequenceNumber := header.SequenceNumber
        DeviceId := header.DeviceId
        Direction := env.usbip_DIR_OUT
        Endpoint := header.Endpoint }
    let replyBody : usbipReturnUnlinkBody :=
      { Status := status
        Padding := List.replicate 24 0 }
    some
      { conn := conn1
        written := w.written ++
          [Written.messageHeader replyHeader, Written.returnUnlinkBody replyBody]
        device := device1 }

/-- One turn of the loop of `usbIPServer.handleCommands`. -/
def handleCommandsStep {κ δ : Type} (env : UsbipEnv κ δ) (w : UsbipWorld κ δ) :
    Option (UsbipWorld κ δ) :=
  match env.readMessageHeader w.conn with
  | none => none
  | some (header, conn1) =>
    if header.Command = env.usbip_COMMAND_SUBMIT then
      handleCommandSubmit env header { w with conn := conn1 }
    else if header.Command = env.usbip_COMMAND_UNLINK then
      handleCommandUnlink env header { w with conn := conn1 }
    else none

/-! ## A small concrete environment, used to evaluate the handlers -/

/-- Key-handle sealing of the concrete environment: a tag for the nil
private key, else the key length, the key and the application. -/
def demoSeal (h : KeyHandle) : Bytes :=
  match h.PrivateKey with
  | none => 0 :: h.ApplicationID
  | some k => 1 :: k.length :: (k ++ h.ApplicationID)

/-- Key-handle opening of the concrete environment; anything that is not a
sealed handle opens to a handle with a nil private key. -/
def demoOpen (b : Bytes) : KeyHandle :=
  match b with
  | 1 :: n :: rest => if n ≤ rest.length then ⟨some (rest.take n), rest.drop n⟩ else ⟨none, []⟩
  | 0 :: rest => ⟨none, rest⟩
  | _ => ⟨none, []⟩

/-- The world of the concrete environment: the configured attestation
credentials and the authentication counter of `FIDODeviceConfig`, a seed for
fresh keys, and the number of signatures made so far. -/
structure DemoWorld where
  AttestationCertificate : Bytes
  AttestationPrivateKey : PrivateKey
  AuthenticationCounter : Nat
  Seed : Nat
  Signatures : Nat
deriving DecidableEq, Repr

/-- The MAKE_CREDENTIAL arguments the concrete environment decodes: one
`public-key` parameter with the given algorithm, relying party
`example.com`. -/
def demoArgs (alg : Int) : CTAPMakeCredentialArgs :=
  { ClientDataHash := []
    Rp := ⟨"example.com", ""⟩
    User := ⟨[1], "", ""⟩
    PubKeyCredParams := [⟨"public-key", alg⟩]
    ExcludeList := []
    Options := ⟨false, false⟩ }

/-- A concrete environment: keys from the seed, a three-byte key codec, a
signature that names the signing key and the length of the signed data, a
certificate that names the certified key, short reads abort; the first
byte of a MAKE_CREDENTIAL body is the negated algorithm, and maps are the
CBOR items that encode. -/
def demoEnv : Env DemoWorld where
  newPrivateKey := fun s =>
    (⟨⟨s.Seed + 7, s.Seed + 9⟩, s.Seed + 5⟩, { s with Seed := s.Seed + 1 })
  sealKeyHandle := fun h s => (demoSeal h, s)
  openKeyHandle := fun _ b => demoOpen b
  createAttestationCertificiate := fun k s => ([0x30, k.PublicKey.X % 256, k.PublicKey.Y % 256], s)
  newAuthenticationCounterId := fun s =>
    ((s.AuthenticationCounter + 1) % 2 ^ 32,
      { s with AuthenticationCounter := (s.AuthenticationCounter + 1) % 2 ^ 32 })
  sign := fun k d s => ([k.D % 256, d.length % 256], { s with Signatures := s.Signatures + 1 })
  marshalECPrivateKey := fun k => some [k.D % 256, k.PublicKey.X % 256, k.PublicKey.Y % 256]
  parseECPrivateKey := fun b =>
    match b with
    | [d, x, y] => some ⟨⟨x, y⟩, d⟩
    | _ => none
  readShort := fun _ _ => none
  readFixedShort := fun _ _ => none
  newCredentialSource := fun rp user s =>
    (⟨"public-key", [s.Seed % 256], ⟨⟨s.Seed + 7, s.Seed + 9⟩, s.Seed + 5⟩, ⟨rp, ""⟩,
      ⟨user, "", ""⟩, 0⟩, { s with Seed := s.Seed + 1 })
  unmarshalMakeCredentialArgs := fun b =>
    match b with
    | [] => none
    | alg :: _ => some (demoArgs (-(Int.ofNat alg)))
  cborMarshal := fun c =>
    match c with
    | Cbor.map kvs => some [0xA0 + kvs.length]
    | _ => none
  sha256 := fun b => List.replicate 32 (b.length % 256)
  omitEmptyStruct := true

/-- A world of the concrete environment: attestation key with scalar 200,
authentication counter 41, seed 0, no signature made yet. -/
def demoWorld : DemoWorld :=
  { AttestationCertificate := [0x30, 1, 2]
    AttestationPrivateKey := ⟨⟨1, 2⟩, 200⟩
    AuthenticationCounter := 41
    Seed := 0
    Signatures := 0 }

/-- The challenge of the REGISTER seed scenario: 32 bytes `00`. -/
def demoChallenge : Bytes := List.replicate 32 0

/-- The application of the REGISTER seed scenario: 32 bytes `11`. -/
def demoApplication : Bytes := List.replicate 32 0x11

/-- The key handle the concrete environment seals for the first fresh key
and `demoApplication`. -/
def demoKeyHandle : Bytes := demoSeal ⟨some [5, 7, 9], demoApplication⟩

/-- The public key REGISTER encodes for the first fresh key of the concrete
environment. -/
def demoPublicKey : Bytes := 4 :: (toBE 32 7 ++ toBE 32 9)

/-- The head of a CBOR data item (RFC 8949): major type and argument, in
the shortest form. -/
def cborHead (major n : Nat) : Bytes :=
  if n < 24 then [major * 32 + n]
  else if n < 256 then [major * 32 + 24, n]
  else if n < 65536 then (major * 32 + 25) :: toBE 2 n
  else if n < 4294967296 then (major * 32 + 26) :: toBE 4 n
  else (major * 32 + 27) :: toBE 8 n

mutual
/-- The RFC 8949 encoding of a data item, entries in the order given. -/
def cborEncode : Cbor → Bytes
  | Cbor.int n => if 0 ≤ n then cborHead 0 n.toNat else cborHead 1 (-1 - n).toNat
  | Cbor.bytes b => cborHead 2 b.length ++ b
  | Cbor.text t => cborHead 3 (stringBytes t).length ++ stringBytes t
  | Cbor.array xs => cborHead 4 xs.length ++ cborEncodeList xs
  | Cbor.map kvs => cborHead 5 kvs.length ++ cborEncodePairs kvs
  | Cbor.bool b => if b then [0xF5] else [0xF4]
/-- The encodings of the items of an array, one after the other. -/
def cborEncodeList : List Cbor → Bytes
  | [] => []
  | x :: xs => cborEncode x ++ cborEncodeList xs
/-- The encodings of the entries of a map, key then value. -/
def cborEncodePairs : List (Cbor × Cbor) → Bytes
  | [] => []
  | (k, v) :: kvs => cborEncode k ++ cborEncode v ++ cborEncodePairs kvs
end

/-- The concrete environment with the RFC 8949 encoder as CBOR library. -/
def cborEnv : Env DemoWorld :=
  { demoEnv with cborMarshal := fun c => some (cborEncode c) }

/-- The concrete environment with a CBOR library that writes empty structs
out instead of leaving them out. -/
def cborKeepEnv : Env DemoWorld :=
  { demoEnv with cborMarshal := fun c => some (cborEncode c), omitEmptyStruct := false }

/-- The value of a big-endian byte string. -/
def ofBE (b : Bytes) : Nat := b.foldl (fun acc x => acc * 256 + x) 0

/-- One length-prefixed field off a byte string. -/
def demoField (b : Bytes) : Option (Bytes × Bytes) :=
  match b with
  | [] => none
  | n :: rest => if n ≤ rest.length then some (rest.take n, rest.drop n) else none

/-- A concrete environment for `saved_state.go` over a counter as random
source: random bytes repeat the counter, the cipher tags the plaintext with
a digest of the key and with the nonce, the key derivation repeats a digest
of password and salt, the config codec writes the counter and the
encryption key, the blob codec writes five length-prefixed fields. -/
def demoStateEnv : StateEnv Nat where
  randomBytes := fun n r => (List.replicate n (r % 256), r + 1)
  scryptKey := fun password salt _ _ _ keyLen =>
    some (List.replicate keyLen ((password.sum + salt.sum) % 256))
  encrypt := fun key data r => (some ((key.sum % 256) :: (r % 256) :: data, [r % 256]), r + 1)
  decrypt := fun key data nonce =>
    match data with
    | k :: n :: plain => if k = key.sum % 256 ∧ [n] = nonce then some plain else none
    | _ => none
  marshalConfig := fun c => some (toBE 4 c.AuthenticationCounter ++ c.EncryptionKey)
  unmarshalConfig := fun b =>
    if 4 ≤ b.length then
      some
        { EncryptionKey := b.drop 4
          AttestationCertificate := []
          AttestationPrivateKey := []
          AuthenticationCounter := ofBE (b.take 4)
          PINHash := []
          Sources := [] }
    else none
  marshalBlob := fun blob =>
    some (blob.Salt.length :: blob.Salt ++ blob.EncryptionKey.length :: blob.EncryptionKey ++
      blob.KeyNonce.length :: blob.KeyNonce ++ blob.EncryptedData.length :: blob.EncryptedData ++
      blob.DataNonce.length :: blob.DataNonce)
  unmarshalBlob := fun b =>
    match demoField b with
    | none => none
    | some (salt, b1) =>
      match demoField b1 with
      | none => none
      | some (key, b2) =>
        match demoField b2 with
        | none => none
        | some (keyNonce, b3) =>
          match demoField b3 with
          | none => none
          | some (data, b4) =>
            match demoField b4 with
            | none => none
            | some (dataNonce, _) => some ⟨salt, key, keyNonce, data, dataNonce⟩

/-- A device config with authentication counter 41. -/
def demoConfig : FIDODeviceConfig :=
  { EncryptionKey := [1, 2, 3]
    AttestationCertificate := []
    AttestationPrivateKey := []
    AuthenticationCounter := 41
    PINHash := []
    Sources := [] }

/-- The blob the concrete environment saves for `demoConfig` under the
passphrase `pw`, from the random state 3. -/
def demoSaved : Bytes :=
  16 :: List.replicate 16 3 ++ 34 :: 224 :: 5 :: List.replicate 32 4 ++ [1, 5] ++
    [9, 128, 6, 0, 0, 0, 41, 1, 2, 3] ++ [1, 6]

/-- The saved blob with its last byte, the data nonce, changed. -/
def demoSavedTampered : Bytes :=
  16 :: List.replicate 16 3 ++ 34 :: 224 :: 5 :: List.replicate 32 4 ++ [1, 5] ++
    [9, 128, 6, 0, 0, 0, 41, 1, 2, 3] ++ [1, 7]

/-- A concrete environment for `usbip_server.go`: the connection is the list
of bytes still to read, one byte per field; the device is the list of parked
sequence numbers and completes every submitted request at once, an IN
transfer with the bytes `AB`. -/
def demoUsbipEnv : UsbipEnv Bytes (List Nat) where
  usbip_COMMAND_SUBMIT := 1
  usbip_COMMAND_UNLINK := 2
  usbip_COMMAND_RET_SUBMIT := 3
  usbip_COMMAND_RET_UNLINK := 4
  usbip_DIR_OUT := 0
  usbip_DIR_IN := 1
  readMessageHeader := fun c =>
    match c with
    | command :: seq :: dev :: dir :: ep :: rest => some (⟨command, seq, dev, dir, ep⟩, rest)
    | _ => none
  readCommandSubmitBody := fun c =>
    match c with
    | flags :: len :: rest => some (⟨flags, len, 0, 0, 0, List.replicate 8 0⟩, rest)
    | _ => none
  readCommandUnlinkBody := fun c =>
    match c with
    | seq :: rest => some (⟨seq⟩, rest)
    | _ => none
  connRead := fun buffer c =>
    if buffer.length ≤ c.length then some (c.take buffer.length, c.drop buffer.length) else none
  setup := fun command => command.SetupBytes
  removeWaitingRequest := fun seq parked => (decide (seq ∈ parked), parked.erase seq)
  deviceHandleMessage := fun _ onReturn endpoint _ transferBuffer w =>
    { w with written := w.written ++
        onReturn (if endpoint = 0 then transferBuffer else transferBuffer.map (fun _ => 0xAB)) }

/-- The prime of the field of P-256 (FIPS 186), the curve of
`elliptic.P256()`. -/
def p256Prime : Nat := 2 ^ 256 - 2 ^ 224 + 2 ^ 192 + 2 ^ 96 - 1

/-- The coefficient `b` of P-256 (FIPS 186). -/
def p256B : Nat := 0x5ac635d8aa3a93e7b3ebbd55769886bc651d06b0cc53b0f63bce3c3e27d2604b

/-- A point of P-256: coordinates in the field with `y² = x³ - 3x + b`. -/
def onP256 (pub : PublicKey) : Prop :=
  pub.X < p256Prime ∧ pub.Y < p256Prime ∧
    pub.Y ^ 2 % p256Prime = (pub.X ^ 3 + (p256Prime - 3) * pub.X + p256B) % p256Prime

/-- The public key of the P-256 private scalar 379: its X coordinate is
below `2 ^ 248`, so its most significant byte in 32-byte form is zero. -/
def shortXKey : PublicKey :=
  { X := 0x005543894af3d00ed7d740abdbd75c96b06877b787db5f70eea78b90a8d7c00a
    Y := 0xbb4c85a3d8ea29efaafa24406912dd84d5b14dc32bf656ef6c6bd58a5d943f92 }

/-! ## Reader lemmas -/

theorem toBE_two (n : Nat) : toBE 2 n = [n / 256 % 256, n % 256] := by
  simp [toBE]

theorem read_append {σ : Type} (env : Env σ) (a b : Bytes) :
    read env (a ++ b) a.length = some (a, b) := by
  simp [read]

theorem read_exact {σ : Type} (env : Env σ) (a : Bytes) :
    read env a a.length = some (a, []) := by
  simp [read]

theorem readBEHeader_cons {σ : Type} (env : Env σ) (cla ins p1 p2 : Nat) (rest : Bytes) :
    readBEHeader env (cla :: ins :: p1 :: p2 :: rest) = some (⟨cla, ins, p1, p2⟩, rest) := by
  simp [readBEHeader, readFixed]

theorem readBE16_cons {σ : Type} (env : Env σ) (hi lo : Nat) (rest : Bytes) :
    readBE16 env (hi :: lo :: rest) = some (hi * 256 + lo, rest) := by
  simp [readBE16, readFixed]

theorem readBE16_toBE {σ : Type} (env : Env σ) (n : Nat) (hn : n < 65536) (rest : Bytes) :
    readBE16 env (toBE 2 n ++ rest) = some (n, rest) := by
  rw [toBE_two]
  simp only [List.cons_append, List.nil_append, readBE16_cons]
  congr 2
  omega

/-- Shape 1: the bare header. -/
theorem decode_header_only {σ : Type} (env : Env σ) (cla ins p1 p2 : Nat) :
    decodeU2FMessage env [cla, ins, p1, p2] = some (⟨cla, ins, p1, p2⟩, [], 0) := by
  simp [decodeU2FMessage, readBEHeader_cons]

/-- Shape 2: header, `00`, response length. -/
theorem decode_le_only {σ : Type} (env : Env σ) (cla ins p1 p2 le : Nat) (hle : le < 65536) :
    decodeU2FMessage env ([cla, ins, p1, p2] ++ 0 :: toBE 2 le)
      = some (⟨cla, ins, p1, p2⟩, [], le) := by
  have h := readBE16_toBE env le hle []
  simp only [List.append_nil] at h
  simp [decodeU2FMessage, readBEHeader_cons, read, h]

/-- Shape 3: header, `00`, request length, non-empty request data. -/
theorem decode_data_only {σ : Type} (env : Env σ) (cla ins p1 p2 : Nat) (d : Bytes)
    (hd : d.length ≤ 65535) (hne : d ≠ []) :
    decodeU2FMessage env ([cla, ins, p1, p2] ++ 0 :: toBE 2 d.length ++ d)
      = some (⟨cla, ins, p1, p2⟩, d, 0) := by
  have h := readBE16_toBE env d.length (by omega) d
  have hlen : d.length ≠ 0 := by
    intro h0; exact hne (List.length_eq_zero.mp h0)
  simp [decodeU2FMessage, readBEHeader_cons, read, h, hlen, hne]

/-- Shape 4: header, `00`, request length, request data, response length. -/
theorem decode_data_le {σ : Type} (env : Env σ) (cla ins p1 p2 : Nat) (d : Bytes) (le : Nat)
    (hd : d.length ≤ 65535) (hle : le < 65536) :
    decodeU2FMessage env ([cla, ins, p1, p2] ++ 0 :: toBE 2 d.length ++ d ++ toBE 2 le)
      = some (⟨cla, ins, p1, p2⟩, d, le) := by
  have h := readBE16_toBE env d.length (by omega) (d ++ toBE 2 le)
  have h2 := readBE16_toBE env le hle []
  simp only [List.append_nil] at h2
  have hr := read_append env d (toBE 2 le)
  have hlen : (toBE 2 le).length = 2 := by simp [toBE_two]
  simp only [List.cons_append, List.nil_append, List.append_assoc] at h ⊢
  simp [decodeU2FMessage, readBEHeader_cons, read, h, h2, hlen]

/-- Every well-formed APDU decodes to its header, data and response length. -/
theorem decode_of_isAPDU {σ : Type} (env : Env σ) (h : U2FMessageHeader) (d : Bytes) (le : Nat)
    (m : Bytes) (hm : IsAPDU h d le m) : decodeU2FMessage env m = some (h, d, le) := by
  obtain ⟨hd, hle, hshape⟩ := hm
  rcases hshape with ⟨rfl, rfl, rfl⟩ | ⟨rfl, rfl⟩ | ⟨hne, rfl, rfl⟩ | rfl
  · exact decode_header_only env _ _ _ _
  · exact decode_le_only env _ _ _ _ le hle
  · exact decode_data_only env _ _ _ _ d hd hne
  · exact decode_data_le env _ _ _ _ d le hd hle

theorem version_reply :
    u2fVersionString ++ toBE 2 U2F_SW_NO_ERROR = [0x55, 0x32, 0x46, 0x5F, 0x56, 0x32, 0x90, 0x00] := by
  decide

/-- A reply of REGISTER starts with the reserved byte `05`. -/
theorem register_reply_head {σ : Type} (env : Env σ) (h : U2FMessageHeader) (r : Bytes) (s s' : σ)
    (out : Bytes) (hr : handleU2FRegister env h r s = some (out, s')) : out.head? = some 5 := by
  unfold handleU2FRegister at hr
  split at hr
  · cases hr
  · dsimp only at hr
    split at hr
    · cases hr
    · split at hr
      · cases hr
      · split at hr
        · cases hr
        · split at hr
          · cases hr
          · simp only [Option.some.injEq, Prod.mk.injEq] at hr
            rw [← hr.1]
            simp [flatten]

/-- A reply of AUTHENTICATE is one of the two status words or starts with
the user-presence byte `01`. -/
theorem authenticate_reply_form {σ : Type} (env : Env σ) (h : U2FMessageHeader) (r : Bytes)
    (s s' : σ) (out : Bytes) (hr : handleU2FAuthenticate env h r s = some (out, s')) :
    out = [0x6A, 0x80] ∨ out = [0x69, 0x85] ∨ out.head? = some 1 := by
  unfold handleU2FAuthenticate at hr
  dsimp only at hr
  repeat' split at hr
  all_goals first
    | (cases hr; done)
    | (simp only [Option.some.injEq, Prod.mk.injEq] at hr
       rw [← hr.1]
       simp [flatten, toBE, U2F_SW_WRONG_DATA, U2F_SW_CONDITIONS_NOT_SATISFIED])

theorem handle_of_decode_none {σ : Type} (env : Env σ) (m : Bytes) (s : σ)
    (h : decodeU2FMessage env m = none) : handleU2FMessage env m s = none := by
  simp [handleU2FMessage, h]

/-- No reply of `handleU2FMessage` is the status word `67 00`. -/
theorem handle_ne_wrong_length {σ : Type} (env : Env σ) (m : Bytes) (s s' : σ) :
    handleU2FMessage env m s ≠ some ([0x67, 0x00], s') := by
  intro hm
  unfold handleU2FMessage at hm
  split at hm
  · cases hm
  · split at hm
    · simp only [version_reply, Option.some.injEq, Prod.mk.injEq] at hm
      exact absurd hm.1 (by decide)
    · split at hm
      · have := register_reply_head env _ _ _ _ _ hm
        simp at this
      · split at hm
        · have := authenticate_reply_form env _ _ _ _ _ hm
          simp at this
        · cases hm

/-- A non-zero byte after the header makes the decoder panic. -/
theorem decode_nonzero_panics {σ : Type} (env : Env σ) (cla ins p1 p2 z : Nat) (rest : Bytes)
    (hz : z ≠ 0) : decodeU2FMessage env (cla :: ins :: p1 :: p2 :: z :: rest) = none := by
  simp [decodeU2FMessage, readBEHeader_cons, read, hz]

theorem readFixed_short {σ : Type} (env : Env σ) (hF : ∀ b n, env.readFixedShort b n = none)
    (b : Bytes) (n : Nat) (hn : b.length < n) : readFixed env b n = none := by
  simp [readFixed, hF, Nat.not_le.mpr hn]

theorem readBE16_short {σ : Type} (env : Env σ) (hF : ∀ b n, env.readFixedShort b n = none)
    (b : Bytes) (hn : b.length < 2) : readBE16 env b = none := by
  simp [readBE16, readFixed_short env hF b 2 hn]

/-- With readers that abort on a short buffer, a message shorter than the
header makes the decoder panic. -/
theorem decode_short_header {σ : Type} (env : Env σ) (hF : ∀ b n, env.readFixedShort b n = none)
    (m : Bytes) (hm : m.length < 4) : decodeU2FMessage env m = none := by
  simp [decodeU2FMessage, readBEHeader, readFixed_short env hF m 4 hm]

/-- With readers that abort on a short buffer, a truncated length field makes
the decoder panic. -/
theorem decode_truncated_length {σ : Type} (env : Env σ)
    (hF : ∀ b n, env.readFixedShort b n = none) (cla ins p1 p2 : Nat) (tail : Bytes)
    (ht : tail.length < 2) : decodeU2FMessage env (cla :: ins :: p1 :: p2 :: 0 :: tail) = none := by
  simp [decodeU2FMessage, readBEHeader_cons, read, readBE16_short env hF tail ht]

/-- With readers that abort on a short buffer, a request length larger than
the data that follows makes the decoder panic. -/
theorem decode_lc_too_large {σ : Type} (env : Env σ) (hR : ∀ b n, env.readShort b n = none)
    (cla ins p1 p2 n : Nat) (d : Bytes) (hn : n < 65536) (hd : d ≠ []) (hlt : d.length < n) :
    decodeU2FMessage env ([cla, ins, p1, p2] ++ 0 :: toBE 2 n ++ d) = none := by
  have h := readBE16_toBE env n hn d
  have hlen : d.length ≠ 0 := by
    intro h0; exact hd (List.length_eq_zero.mp h0)
  simp only [List.cons_append, List.nil_append] at h ⊢
  simp [decodeU2FMessage, readBEHeader_cons, read, h, hR, Nat.not_le.mpr hlt, hd]

/-- With readers that abort on a short buffer, one stray byte after the data
makes the decoder panic. -/
theorem decode_stray_byte {σ : Type} (env : Env σ) (hF : ∀ b n, env.readFixedShort b n = none)
    (cla ins p1 p2 x : Nat) (d : Bytes) (hd : d.length ≤ 65535) :
    decodeU2FMessage env ([cla, ins, p1, p2] ++ 0 :: toBE 2 d.length ++ d ++ [x]) = none := by
  have h := readBE16_toBE env d.length (by omega) (d ++ [x])
  have h2 := readBE16_short env hF [x] (by simp)
  simp only [List.cons_append, List.nil_append, List.append_assoc] at h ⊢
  simp [decodeU2FMessage, readBEHeader_cons, read, h, h2]

/-! ## REGISTER and AUTHENTICATE lemmas -/

theorem toBE_length (w n : Nat) : (toBE w n).length = w := by
  induction w with
  | zero => rfl
  | succ w ih => simp [toBE, ih]

theorem ellipticMarshal_eq (pub : PublicKey) (hX : pub.X < 2 ^ 256) (hY : pub.Y < 2 ^ 256) :
    ellipticMarshal pub = some (4 :: (toBE 32 pub.X ++ toBE 32 pub.Y)) := by
  have h : (256 : Nat) ^ 32 = 2 ^ 256 := by norm_num
  have hX' : pub.X < 256 ^ 32 := by rw [h]; exact hX
  have hY' : pub.Y < 256 ^ 32 := by rw [h]; exact hY
  simp only [ellipticMarshal, fillBytes, if_pos hX', if_pos hY']

theorem ellipticMarshal_form (pub : PublicKey) (publicKey : Bytes)
    (h : ellipticMarshal pub = some publicKey) :
    publicKey = 4 :: (toBE 32 pub.X ++ toBE 32 pub.Y) ∧ publicKey.length = 65 := by
  unfold ellipticMarshal fillBytes at h
  split at h
  · rename_i x y hx hy
    split at hx
    · split at hy
      · simp only [Option.some.injEq] at hx hy h
        subst hx hy h
        simp [toBE_length]
      · cases hy
    · cases hx
  · cases h

/-- REGISTER on a 64-byte request, with a fresh key the libraries accept:
the reply as the code builds it, each intermediate value named. -/
theorem register_eq {σ : Type} (env : Env σ) (header : U2FMessageHeader)
    (challenge application : Bytes) (s s1 s2 s3 s4 : σ) (privateKey : PrivateKey)
    (publicKey encodedPrivateKey keyHandle cert signature : Bytes)
    (hc : challenge.length = 32) (ha : application.length = 32)
    (hkey : env.newPrivateKey s = (privateKey, s1))
    (hpub : ellipticMarshal privateKey.PublicKey = some publicKey)
    (hmarshal : env.marshalECPrivateKey privateKey = some encodedPrivateKey)
    (hseal : env.sealKeyHandle ⟨some encodedPrivateKey, application⟩ s1 = (keyHandle, s2))
    (hcert : env.createAttestationCertificiate privateKey s2 = (cert, s3))
    (hsign : env.sign privateKey ([0] ++ application ++ challenge ++ keyHandle ++ publicKey) s3
      = (signature, s4)) :
    handleU2FRegister env header (challenge ++ application) s =
      some ([0x05] ++ publicKey ++ [keyHandle.length % 256] ++ keyHandle ++ cert ++ signature ++
        [0x90, 0x00], s4) := by
  have htake : (challenge ++ application).take 32 = challenge := by
    rw [← hc]; exact List.take_left' rfl
  have hdrop : (challenge ++ application).drop 32 = application := by
    rw [← hc]; exact List.drop_left' rfl
  have hsw : toBE 2 U2F_SW_NO_ERROR = [0x90, 0x00] := by decide
  have hsign' : env.sign privateKey (0 :: (application ++ (challenge ++ (keyHandle ++ publicKey))))
      s3 = (signature, s4) := by
    simpa using hsign
  unfold handleU2FRegister
  simp only [htake, hdrop, hc, ha, List.length_append, hkey, hpub, hmarshal, hseal, hcert, hsw,
    flatten]
  simp [hsign']

/-- The key handle is read back from a REGISTER reply at offset 67, with the
length at offset 66. -/
theorem register_reply_handle (publicKey keyHandle rest : Bytes) (hpk : publicKey.length = 65) :
    (([0x05] ++ publicKey ++ [keyHandle.length] ++ keyHandle ++ rest).getD 66 0 = keyHandle.length) ∧
    (([0x05] ++ publicKey ++ [keyHandle.length] ++ keyHandle ++ rest).drop 67).take keyHandle.length
      = keyHandle := by
  have h66 : ([0x05] ++ publicKey).length = 66 := by simp [hpk]
  have h67 : ([0x05] ++ publicKey ++ [keyHandle.length]).length = 67 := by simp [hpk]
  constructor
  · have : [0x05] ++ publicKey ++ [keyHandle.length] ++ keyHandle ++ rest
        = ([0x05] ++ publicKey) ++ (keyHandle.length :: (keyHandle ++ rest)) := by simp
    rw [this, List.getD_eq_getElem?_getD, List.getElem?_append_right (by omega)]
    simp [hpk]
  · have : [0x05] ++ publicKey ++ [keyHandle.length] ++ keyHandle ++ rest
        = ([0x05] ++ publicKey ++ [keyHandle.length]) ++ (keyHandle ++ rest) := by simp
    rw [this, List.drop_left' h67]
    exact List.take_left' rfl

/-- AUTHENTICATE on a request `challenge[32] | application[32] | L | handle[L]`:
what the code does once the request is taken apart. -/
theorem authenticate_eq {σ : Type} (env : Env σ) (header : U2FMessageHeader)
    (challenge application keyHandle : Bytes) (s : σ)
    (hc : challenge.length = 32) (ha : application.length = 32) :
    handleU2FAuthenticate env header
        (challenge ++ application ++ keyHandle.length :: keyHandle) s =
      match (env.openKeyHandle s keyHandle).PrivateKey with
      | none => some ([0x6A, 0x80], s)
      | some encodedPrivateKey =>
        if (env.openKeyHandle s keyHandle).ApplicationID ≠ application then
          some ([0x6A, 0x80], s)
        else
          match env.parseECPrivateKey encodedPrivateKey with
          | none => none
          | some privateKey =>
            if header.Param1 = 0x07 then some ([0x69, 0x85], s)
            else
              some ([1] ++ toBE 4 (env.newAuthenticationCounterId s).1 ++
                  (env.sign privateKey
                    (application ++ [1] ++ toBE 4 (env.newAuthenticationCounterId s).1 ++
                      challenge)
                    (env.newAuthenticationCounterId s).2).1 ++ [0x90, 0x00],
                (env.sign privateKey
                    (application ++ [1] ++ toBE 4 (env.newAuthenticationCounterId s).1 ++
                      challenge)
                    (env.newAuthenticationCounterId s).2).2) := by
  have h1 : read env (challenge ++ application ++ keyHandle.length :: keyHandle) 32
      = some (challenge, application ++ keyHandle.length :: keyHandle) := by
    have := read_append env challenge (application ++ keyHandle.length :: keyHandle)
    rw [hc] at this
    simpa using this
  have h2 : read env (application ++ keyHandle.length :: keyHandle) 32
      = some (application, keyHandle.length :: keyHandle) := by
    have := read_append env application (keyHandle.length :: keyHandle)
    rw [ha] at this
    exact this
  have h3 : readLE8 env (keyHandle.length :: keyHandle) = some (keyHandle.length, keyHandle) := by
    simp [readLE8, readFixed]
  have h4 := read_exact env keyHandle
  have hwd : toBE 2 U2F_SW_WRONG_DATA = [0x6A, 0x80] := by decide
  have hcs : toBE 2 U2F_SW_CONDITIONS_NOT_SATISFIED = [0x69, 0x85] := by decide
  have hsw : toBE 2 U2F_SW_NO_ERROR = [0x90, 0x00] := by decide
  unfold handleU2FAuthenticate
  simp only [h1, h2, h3, h4, hwd, hcs, hsw, flatten, U2F_AUTH_CONTROL_CHECK_ONLY]
  cases (env.openKeyHandle s keyHandle).PrivateKey with
  | none => simp
  | some enc =>
    simp only
    split
    · rfl
    · cases env.parseECPrivateKey enc with
      | none => rfl
      | some k =>
        simp only
        split
        · rfl
        · simp

/-! ## MAKE_CREDENTIAL lemmas -/

theorem supported_foldl (params : List PublicKeyCredentialParams) (acc : Bool) :
    params.foldl
        (fun supported param =>
          if param.Algorithm = COSE_ALGORITHM_ID_ES256 ∧ param.Type_ = "public-key" then true
          else supported)
        acc = true ↔
      acc = true ∨ ∃ p ∈ params, p.Algorithm = -7 ∧ p.Type_ = "public-key" := by
  induction params generalizing acc with
  | nil => simp
  | cons q qs ih =>
    rw [List.foldl_cons, ih]
    by_cases hq : q.Algorithm = COSE_ALGORITHM_ID_ES256 ∧ q.Type_ = "public-key"
    · have hq' : q.Algorithm = -7 ∧ q.Type_ = "public-key" := hq
      simp only [if_pos hq, true_or, true_iff]
      exact Or.inr ⟨q, List.mem_cons_self _ _, hq'⟩
    · have hq' : ¬(q.Algorithm = -7 ∧ q.Type_ = "public-key") := hq
      simp only [if_neg hq]
      constructor
      · rintro (h | ⟨p, hp, hcond⟩)
        · exact Or.inl h
        · exact Or.inr ⟨p, List.mem_cons_of_mem _ hp, hcond⟩
      · rintro (h | ⟨p, hp, hcond⟩)
        · exact Or.inl h
        · rcases List.mem_cons.mp hp with rfl | hp'
          · exact absurd hcond hq'
          · exact Or.inr ⟨p, hp', hcond⟩

/-- The loop sets `supported` exactly when some entry is ES256 of type
`public-key`. -/
theorem supportedAlgorithm_iff (params : List PublicKeyCredentialParams) :
    supportedAlgorithm params = true ↔
      ∃ p ∈ params, p.Algorithm = -7 ∧ p.Type_ = "public-key" := by
  unfold supportedAlgorithm
  rw [supported_foldl]
  simp

/-- Without a supported algorithm MAKE_CREDENTIAL replies `26` and leaves
the world as it was. -/
theorem makeCredential_unsupported {σ : Type} (env : Env σ) (data : Bytes)
    (args : CTAPMakeCredentialArgs) (s : σ)
    (hdec : env.unmarshalMakeCredentialArgs data = some args)
    (hno : supportedAlgorithm args.PubKeyCredParams = false) :
    handleMakeCredential env data s = some ([0x26], s) := by
  simp [handleMakeCredential, hdec, hno, CTAP2_ERR_UNSUPPORTED_ALGORITHM]

/-- With a supported algorithm every reply of MAKE_CREDENTIAL starts with the
status `00` and comes after `newCredentialSource`. -/
theorem makeCredential_supported {σ : Type} (env : Env σ) (data : Bytes)
    (args : CTAPMakeCredentialArgs) (s s' : σ) (out : Bytes)
    (hdec : env.unmarshalMakeCredentialArgs data = some args)
    (hyes : supportedAlgorithm args.PubKeyCredParams = true)
    (hout : handleMakeCredential env data s = some (out, s')) :
    out.head? = some 0x00 ∧ s' = (env.newCredentialSource args.Rp.Id args.User.Id s).2 := by
  unfold handleMakeCredential at hout
  simp only [hdec, hyes, Bool.not_true, Bool.false_eq_true, if_false] at hout
  split at hout
  · cases hout
  · split at hout
    · cases hout
    · simp only [Option.some.injEq, Prod.mk.injEq] at hout
      rw [← hout.1, ← hout.2]
      simp [CTAP1_ERR_SUCCESS]

/-- With a supported algorithm and a CBOR encoder that accepts maps,
MAKE_CREDENTIAL replies. -/
theorem makeCredential_returns {σ : Type} (env : Env σ) (data : Bytes)
    (args : CTAPMakeCredentialArgs) (s : σ)
    (hdec : env.unmarshalMakeCredentialArgs data = some args)
    (hyes : supportedAlgorithm args.PubKeyCredParams = true)
    (hmap : ∀ kvs, (env.cborMarshal (Cbor.map kvs)).isSome = true) :
    ∃ body, handleMakeCredential env data s =
      some (0x00 :: body, (env.newCredentialSource args.Rp.Id args.User.Id s).2) := by
  unfold handleMakeCredential
  simp only [hdec, hyes, Bool.not_true, Bool.false_eq_true, if_false]
  have hkey : ∀ pub, ∃ b, ctapEncodeKeyAsCOSE env pub = some b := by
    intro pub
    have := hmap [(Cbor.int 1, Cbor.int 2), (Cbor.int 3, Cbor.int COSE_ALGORITHM_ID_ES256),
      (Cbor.int (-1), Cbor.int 1), (Cbor.int (-2), Cbor.bytes (bigIntBytes pub.X)),
      (Cbor.int (-3), Cbor.bytes (bigIntBytes pub.Y))]
    exact Option.isSome_iff_exists.mp this
  obtain ⟨kb, hkb⟩ := hkey (env.newCredentialSource args.Rp.Id args.User.Id s).1.PrivateKey.PublicKey
  simp only [hkb]
  simp only [CTAPMakeCredentialReponse.toCbor]
  obtain ⟨rb, hrb⟩ := Option.isSome_iff_exists.mp (hmap
    [(Cbor.int 1, Cbor.text "none"),
     (Cbor.int 2, Cbor.bytes (flatten [env.sha256 (stringBytes args.Rp.Id),
        [CTAP_AUTH_DATA_FLAG_USER_PRESENT ||| CTAP_AUTH_DATA_FLAG_USER_VERIFIED |||
          CTAP_AUTH_DATA_FLAG_ATTESTED_DATA_INCLUDED],
        toBE 4 ((env.newCredentialSource args.Rp.Id args.User.Id s).1.SignatureCounter
          % 2 ^ 32).toNat,
        flatten [AAGUID,
          toBE 2 ((env.newCredentialSource args.Rp.Id args.User.Id s).1.ID.length % 65536),
          (env.newCredentialSource args.Rp.Id args.User.Id s).1.ID, kb]])),
     (Cbor.int 3, Cbor.map [])])
  exact ⟨rb, by simp only [hrb, CTAP1_ERR_SUCCESS]⟩

/-! ## The claims -/

/-- C1: `decodeU2FMessage` parses all four APDU shapes.  For every header
`(CLA, INS, P1, P2)`, every data string `d` of at most 65535 bytes and every
16-bit `Le`: the bare header decodes to `(h, [], 0)`; `h ++ 00 ++ BE16(Le)`
to `(h, [], Le)`; `h ++ 00 ++ BE16(|d|) ++ d` to `(h, d, 0)` when `d` is not
empty; and `h ++ 00 ++ BE16(|d|) ++ d ++ BE16(Le)` to `(h, d, Le)`. -/
theorem C1_decodeU2FMessage_apdu_shapes {σ : Type} (env : Env σ) (cla ins p1 p2 : Nat)
    (d : Bytes) (le : Nat) (hd : d.length ≤ 65535) (hle : le < 65536) :
    decodeU2FMessage env [cla, ins, p1, p2] = some (⟨cla, ins, p1, p2⟩, [], 0) ∧
    decodeU2FMessage env ([cla, ins, p1, p2] ++ 0 :: toBE 2 le)
      = some (⟨cla, ins, p1, p2⟩, [], le) ∧
    (d ≠ [] → decodeU2FMessage env ([cla, ins, p1, p2] ++ 0 :: toBE 2 d.length ++ d)
      = some (⟨cla, ins, p1, p2⟩, d, 0)) ∧
    decodeU2FMessage env ([cla, ins, p1, p2] ++ 0 :: toBE 2 d.length ++ d ++ toBE 2 le)
      = some (⟨cla, ins, p1, p2⟩, d, le) :=
  ⟨decode_header_only env cla ins p1 p2,
   decode_le_only env cla ins p1 p2 le hle,
   fun hne => decode_data_only env cla ins p1 p2 d hd hne,
   decode_data_le env cla ins p1 p2 d le hd hle⟩

/-- C1 at the header `00 01 03 00`, the data `0A 0B 0C` and `Le = 0x0102`. -/
theorem C1_decodeU2FMessage_apdu_shapes_witness :
    ([10, 11, 12] : Bytes).length ≤ 65535 ∧ 258 < 65536 ∧ ([10, 11, 12] : Bytes) ≠ [] ∧
    decodeU2FMessage demoEnv [0, 1, 3, 0] = some (⟨0, 1, 3, 0⟩, [], 0) ∧
    decodeU2FMessage demoEnv [0, 1, 3, 0, 0, 1, 2] = some (⟨0, 1, 3, 0⟩, [], 258) ∧
    decodeU2FMessage demoEnv [0, 1, 3, 0, 0, 0, 3, 10, 11, 12]
      = some (⟨0, 1, 3, 0⟩, [10, 11, 12], 0) ∧
    decodeU2FMessage demoEnv [0, 1, 3, 0, 0, 0, 3, 10, 11, 12, 1, 2]
      = some (⟨0, 1, 3, 0⟩, [10, 11, 12], 258) :=
  have h := C1_decodeU2FMessage_apdu_shapes demoEnv 0 1 3 0 [10, 11, 12] 258
    (by decide) (by decide)
  ⟨by decide, by decide, by decide, h.1, h.2.1, h.2.2.1 (by decide), h.2.2.2⟩

/-- C2 (as stated) fails: the message `00 03 00 00 01`, whose byte in the
place of the leading `00` of the length field is `01`, gets no reply at all;
`handleU2FMessage` panics instead of answering `67 00`. -/
theorem C2_wrong_length_counterexample :
    handleU2FMessage demoEnv [0, 3, 0, 0, 1] demoWorld = none ∧
    (handleU2FMessage demoEnv [0, 3, 0, 0, 1] demoWorld).map Prod.fst ≠ some [0x67, 0x00] := by
  decide

/-- C2 (amended): `handleU2FMessage` never replies `67 00`, whatever the
message; a non-zero byte where the leading `00` of the length field is
expected makes it panic without a reply; and when the byte readers abort on
a short buffer, so do a message shorter than the header, a truncated length
field, a request length larger than the data that follows, and a single
stray byte after the data. -/
theorem C2_malformed_framing_aborts {σ : Type} (env : Env σ) (s : σ) :
    (∀ m s', handleU2FMessage env m s ≠ some ([0x67, 0x00], s')) ∧
    (∀ cla ins p1 p2 z rest, z ≠ 0 →
      handleU2FMessage env (cla :: ins :: p1 :: p2 :: z :: rest) s = none) ∧
    ((∀ b n, env.readFixedShort b n = none) → (∀ b n, env.readShort b n = none) →
      (∀ m, m.length < 4 → handleU2FMessage env m s = none) ∧
      (∀ cla ins p1 p2 tail, tail.length < 2 →
        handleU2FMessage env (cla :: ins :: p1 :: p2 :: 0 :: tail) s = none) ∧
      (∀ cla ins p1 p2 n d, n < 65536 → d ≠ [] → d.length < n →
        handleU2FMessage env ([cla, ins, p1, p2] ++ 0 :: toBE 2 n ++ d) s = none) ∧
      (∀ cla ins p1 p2 x d, d.length ≤ 65535 →
        handleU2FMessage env ([cla, ins, p1, p2] ++ 0 :: toBE 2 d.length ++ d ++ [x]) s = none)) := by
  refine ⟨fun m s' => handle_ne_wrong_length env m s s', ?_, ?_⟩
  · intro cla ins p1 p2 z rest hz
    exact handle_of_decode_none env _ s (decode_nonzero_panics env cla ins p1 p2 z rest hz)
  · intro hF hR
    refine ⟨?_, ?_, ?_, ?_⟩
    · intro m hm
      exact handle_of_decode_none env _ s (decode_short_header env hF m hm)
    · intro cla ins p1 p2 tail ht
      exact handle_of_decode_none env _ s (decode_truncated_length env hF cla ins p1 p2 tail ht)
    · intro cla ins p1 p2 n d hn hd hlt
      exact handle_of_decode_none env _ s (decode_lc_too_large env hR cla ins p1 p2 n d hn hd hlt)
    · intro cla ins p1 p2 x d hd
      exact handle_of_decode_none env _ s (decode_stray_byte env hF cla ins p1 p2 x d hd)

/-- C2 (amended) at one message of each malformed kind. -/
theorem C2_malformed_framing_aborts_witness :
    (1 : Nat) ≠ 0 ∧ handleU2FMessage demoEnv [0, 3, 0, 0, 1] demoWorld = none ∧
    (∀ b n, demoEnv.readFixedShort b n = none) ∧ (∀ b n, demoEnv.readShort b n = none) ∧
    ([0, 3] : Bytes).length < 4 ∧ handleU2FMessage demoEnv [0, 3] demoWorld = none ∧
    ([0] : Bytes).length < 2 ∧ handleU2FMessage demoEnv [0, 3, 0, 0, 0, 0] demoWorld = none ∧
    5 < 65536 ∧ ([1, 2] : Bytes) ≠ [] ∧ ([1, 2] : Bytes).length < 5 ∧
    handleU2FMessage demoEnv [0, 3, 0, 0, 0, 0, 5, 1, 2] demoWorld = none ∧
    ([9] : Bytes).length ≤ 65535 ∧ handleU2FMessage demoEnv [0, 3, 0, 0, 0, 0, 1, 9, 7] demoWorld = none :=
  have h := C2_malformed_framing_aborts demoEnv demoWorld
  have h3 := h.2.2 (fun _ _ => rfl) (fun _ _ => rfl)
  ⟨by decide, h.2.1 0 3 0 0 1 [] (by decide), fun _ _ => rfl, fun _ _ => rfl,
   by decide, h3.1 [0, 3] (by decide),
   by decide, h3.2.1 0 3 0 0 [0] (by decide),
   by decide, by decide, by decide, h3.2.2.1 0 3 0 0 5 [1, 2] (by decide) (by decide) (by decide),
   by decide, h3.2.2.2 0 3 0 0 7 [9] (by decide)⟩

/-- C3: for every well-formed APDU whose INS byte is `03`, whatever its CLA,
P1, P2, data and Le, `handleU2FMessage` returns exactly the eight bytes
`55 32 46 5F 56 32 90 00` (ASCII `U2F_V2`, then SW_NO_ERROR) and leaves the
device untouched; in particular for the input `00 03 00 00 00 00 00 00 00`. -/
theorem C3_version_reply {σ : Type} (env : Env σ) (h : U2FMessageHeader) (d : Bytes) (le : Nat)
    (m : Bytes) (s : σ) (hm : IsAPDU h d le m) (hins : h.Command = 0x03) :
    handleU2FMessage env m s = some ([0x55, 0x32, 0x46, 0x5F, 0x56, 0x32, 0x90, 0x00], s) ∧
    handleU2FMessage env [0, 3, 0, 0, 0, 0, 0, 0, 0] s
      = some ([0x55, 0x32, 0x46, 0x5F, 0x56, 0x32, 0x90, 0x00], s) := by
  have hseed : IsAPDU ⟨0, 3, 0, 0⟩ [] 0 [0, 3, 0, 0, 0, 0, 0, 0, 0] := by
    refine ⟨by decide, by decide, Or.inr (Or.inr (Or.inr ?_))⟩
    decide
  constructor
  · simp [handleU2FMessage, decode_of_isAPDU env h d le m hm, hins, U2F_COMMAND_VERSION,
      version_reply]
  · simp [handleU2FMessage, decode_of_isAPDU env _ _ _ _ hseed, U2F_COMMAND_VERSION,
      version_reply]

/-- C3 at the APDU `FF 03 07 09 | 00 | 00 02 | AA BB | 01 00` (data and Le
present, arbitrary CLA, P1, P2). -/
theorem C3_version_reply_witness :
    IsAPDU ⟨255, 3, 7, 9⟩ [0xAA, 0xBB] 256 [255, 3, 7, 9, 0, 0, 2, 0xAA, 0xBB, 1, 0] ∧
    (⟨255, 3, 7, 9⟩ : U2FMessageHeader).Command = 0x03 ∧
    handleU2FMessage demoEnv [255, 3, 7, 9, 0, 0, 2, 0xAA, 0xBB, 1, 0] demoWorld
      = some ([0x55, 0x32, 0x46, 0x5F, 0x56, 0x32, 0x90, 0x00], demoWorld) :=
  have hm : IsAPDU ⟨255, 3, 7, 9⟩ [0xAA, 0xBB] 256 [255, 3, 7, 9, 0, 0, 2, 0xAA, 0xBB, 1, 0] :=
    ⟨by decide, by decide, Or.inr (Or.inr (Or.inr (by decide)))⟩
  ⟨hm, rfl, (C3_version_reply demoEnv ⟨255, 3, 7, 9⟩ [0xAA, 0xBB] 256 _ demoWorld hm rfl).1⟩

/-- C4: for every REGISTER request of a 32-byte challenge followed by a
32-byte application, the response is exactly
`05 ++ public_key ++ L ++ key_handle ++ cert ++ signature ++ 90 00`, where
`public_key` is the 65-byte uncompressed encoding `04 | X | Y` of the freshly
generated key, `key_handle` is the sealed form of (encoded fresh private key,
application), and the byte `L` is the length of `key_handle`, so that the `L`
bytes after it (offset 67) are exactly `key_handle`.  The fresh key is one
the libraries encode, and the sealed handle fits the one-byte length field
(the code writes `uint8(len(keyHandle))`). -/
theorem C4_register_response {σ : Type} (env : Env σ) (header : U2FMessageHeader)
    (challenge application : Bytes) (s s1 s2 s3 s4 : σ) (privateKey : PrivateKey)
    (publicKey encodedPrivateKey keyHandle cert signature : Bytes)
    (hc : challenge.length = 32) (ha : application.length = 32)
    (hkey : env.newPrivateKey s = (privateKey, s1))
    (hpub : ellipticMarshal privateKey.PublicKey = some publicKey)
    (hmarshal : env.marshalECPrivateKey privateKey = some encodedPrivateKey)
    (hseal : env.sealKeyHandle ⟨some encodedPrivateKey, application⟩ s1 = (keyHandle, s2))
    (hlen : keyHandle.length < 256)
    (hcert : env.createAttestationCertificiate privateKey s2 = (cert, s3))
    (hsign : env.sign privateKey ([0] ++ application ++ challenge ++ keyHandle ++ publicKey) s3
      = (signature, s4)) :
    handleU2FRegister env header (challenge ++ application) s =
      some ([0x05] ++ publicKey ++ [keyHandle.length] ++ keyHandle ++ cert ++ signature ++
        [0x90, 0x00], s4) ∧
    publicKey = 4 :: (toBE 32 privateKey.PublicKey.X ++ toBE 32 privateKey.PublicKey.Y) ∧
    publicKey.length = 65 ∧
    ([0x05] ++ publicKey ++ [keyHandle.length] ++ keyHandle ++ cert ++ signature ++
        [0x90, 0x00]).getD 66 0 = keyHandle.length ∧
    (([0x05] ++ publicKey ++ [keyHandle.length] ++ keyHandle ++ cert ++ signature ++
        [0x90, 0x00]).drop 67).take keyHandle.length = keyHandle := by
  have hform := ellipticMarshal_form _ _ hpub
  have hreg := register_eq env header challenge application s s1 s2 s3 s4 privateKey publicKey
    encodedPrivateKey keyHandle cert signature hc ha hkey hpub hmarshal hseal hcert hsign
  rw [Nat.mod_eq_of_lt hlen] at hreg
  have hh := register_reply_handle publicKey keyHandle (cert ++ signature ++ [0x90, 0x00]) hform.2
  simp only [← List.append_assoc] at hh
  exact ⟨hreg, hform.1, hform.2, hh.1, hh.2⟩

set_option maxRecDepth 100000 in
/-- C4 at the seed scenario: challenge `00` x 32, application `11` x 32. -/
theorem C4_register_response_witness :
    demoChallenge.length = 32 ∧ demoApplication.length = 32 ∧ demoKeyHandle.length < 256 ∧
    handleU2FRegister demoEnv ⟨0, 1, 0, 0⟩ (demoChallenge ++ demoApplication) demoWorld =
      some ([0x05] ++ demoPublicKey ++ [demoKeyHandle.length] ++ demoKeyHandle ++ [0x30, 7, 9] ++
        [5, 167] ++ [0x90, 0x00], { demoWorld with Seed := 1, Signatures := 1 }) :=
  ⟨by decide, by decide, by decide,
   (C4_register_response demoEnv ⟨0, 1, 0, 0⟩ demoChallenge demoApplication demoWorld
      { demoWorld with Seed := 1 } { demoWorld with Seed := 1 } { demoWorld with Seed := 1 }
      { demoWorld with Seed := 1, Signatures := 1 } ⟨⟨7, 9⟩, 5⟩ demoPublicKey [5, 7, 9]
      demoKeyHandle [0x30, 7, 9] [5, 167] (by decide) (by decide) rfl (by decide) rfl rfl
      (by decide) rfl (by decide)).1⟩

set_option maxRecDepth 100000 in
/-- C5 (as stated) fails: in the seed scenario the device is configured with
the attestation key of scalar 200, whose signature over
`00 ++ application ++ challenge ++ key_handle ++ public_key` is `C8 A7`, but
the signature in the REGISTER response is `05 A7`, the one made with the key
freshly generated for this registration (scalar 5). -/
theorem C5_attestation_key_counterexample :
    (handleU2FRegister demoEnv ⟨0, 1, 0, 0⟩ (demoChallenge ++ demoApplication) demoWorld).map
        Prod.fst =
      some ([0x05] ++ demoPublicKey ++ [demoKeyHandle.length] ++ demoKeyHandle ++ [0x30, 7, 9] ++
        [5, 167] ++ [0x90, 0x00]) ∧
    (demoEnv.sign demoWorld.AttestationPrivateKey
        ([0] ++ demoApplication ++ demoChallenge ++ demoKeyHandle ++ demoPublicKey)
        { demoWorld with Seed := 1 }).1 = [200, 167] ∧
    (demoEnv.sign ⟨⟨7, 9⟩, 5⟩
        ([0] ++ demoApplication ++ demoChallenge ++ demoKeyHandle ++ demoPublicKey)
        { demoWorld with Seed := 1 }).1 = [5, 167] ∧
    (handleU2FRegister demoEnv ⟨0, 1, 0, 0⟩ (demoChallenge ++ demoApplication) demoWorld).map
        Prod.fst ≠
      some ([0x05] ++ demoPublicKey ++ [demoKeyHandle.length] ++ demoKeyHandle ++ [0x30, 7, 9] ++
        (demoEnv.sign demoWorld.AttestationPrivateKey
          ([0] ++ demoApplication ++ demoChallenge ++ demoKeyHandle ++ demoPublicKey)
          { demoWorld with Seed := 1 }).1 ++ [0x90, 0x00]) := by
  decide

/-- C5 (amended): for every REGISTER request the signature in the response
is produced with the private key freshly generated for this registration
(the key whose encoding is sealed into the key handle and which is handed to
`createAttestationCertificiate` to make the certificate the response
carries), over `00 ++ application ++ challenge ++ key_handle ++ public_key`;
the response ends in that signature followed by `90 00`. -/
theorem C5_register_signature_by_fresh_key {σ : Type} (env : Env σ) (header : U2FMessageHeader)
    (challenge application : Bytes) (s s1 s2 s3 : σ) (privateKey : PrivateKey)
    (publicKey encodedPrivateKey keyHandle cert : Bytes)
    (hc : challenge.length = 32) (ha : application.length = 32)
    (hkey : env.newPrivateKey s = (privateKey, s1))
    (hpub : ellipticMarshal privateKey.PublicKey = some publicKey)
    (hmarshal : env.marshalECPrivateKey privateKey = some encodedPrivateKey)
    (hseal : env.sealKeyHandle ⟨some encodedPrivateKey, application⟩ s1 = (keyHandle, s2))
    (hcert : env.createAttestationCertificiate privateKey s2 = (cert, s3)) :
    handleU2FRegister env header (challenge ++ application) s =
      some (([0x05] ++ publicKey ++ [keyHandle.length % 256] ++ keyHandle ++ cert) ++
        (env.sign privateKey ([0] ++ application ++ challenge ++ keyHandle ++ publicKey) s3).1 ++
        [0x90, 0x00],
        (env.sign privateKey ([0] ++ application ++ challenge ++ keyHandle ++ publicKey) s3).2) := by
  have hreg := register_eq env header challenge application s s1 s2 s3 _ privateKey publicKey
    encodedPrivateKey keyHandle cert _ hc ha hkey hpub hmarshal hseal hcert rfl
  simpa using hreg

set_option maxRecDepth 100000 in
/-- C5 (amended) at the seed scenario: the signature `05 A7` names the fresh
key (scalar 5), not the configured attestation key (scalar 200). -/
theorem C5_register_signature_by_fresh_key_witness :
    demoChallenge.length = 32 ∧ demoApplication.length = 32 ∧
    handleU2FRegister demoEnv ⟨0, 1, 0, 0⟩ (demoChallenge ++ demoApplication) demoWorld =
      some (([0x05] ++ demoPublicKey ++ [demoKeyHandle.length % 256] ++ demoKeyHandle ++
          [0x30, 7, 9]) ++ [5, 167] ++ [0x90, 0x00],
        { demoWorld with Seed := 1, Signatures := 1 }) :=
  ⟨by decide, by decide,
   C5_register_signature_by_fresh_key demoEnv ⟨0, 1, 0, 0⟩ demoChallenge demoApplication demoWorld
      { demoWorld with Seed := 1 } { demoWorld with Seed := 1 } { demoWorld with Seed := 1 }
      ⟨⟨7, 9⟩, 5⟩ demoPublicKey [5, 7, 9] demoKeyHandle [0x30, 7, 9] (by decide) (by decide) rfl
      (by decide) rfl rfl rfl⟩

/-- C6: for every AUTHENTICATE request
`challenge[32] ++ application[32] ++ L ++ key_handle[L]` and every control
byte P1, if the key handle fails to unseal (opens with a nil private key) or
the application in the opened handle differs from the request's, then
`handleU2FAuthenticate` returns exactly `6A 80` and the world it returns is
the one it was given: no signature is made and the authentication counter is
not advanced. -/
theorem C6_authenticate_wrong_data {σ : Type} (env : Env σ) (header : U2FMessageHeader)
    (challenge application keyHandle : Bytes) (s : σ)
    (hc : challenge.length = 32) (ha : application.length = 32)
    (hbad : (env.openKeyHandle s keyHandle).PrivateKey = none ∨
      (env.openKeyHandle s keyHandle).ApplicationID ≠ application) :
    handleU2FAuthenticate env header (challenge ++ application ++ keyHandle.length :: keyHandle) s
      = some ([0x6A, 0x80], s) := by
  rw [authenticate_eq env header challenge application keyHandle s hc ha]
  rcases hbad with hnil | happ
  · simp [hnil]
  · cases hpk : (env.openKeyHandle s keyHandle).PrivateKey with
    | none => rfl
    | some enc => simp [happ]

set_option maxRecDepth 100000 in
/-- C6 at a tampered handle (first byte flipped) and at a good handle
presented with another application; in both the counter stays 41 and no
signature is counted. -/
theorem C6_authenticate_wrong_data_witness :
    demoChallenge.length = 32 ∧ demoApplication.length = 32 ∧
    (demoEnv.openKeyHandle demoWorld (9 :: demoKeyHandle.tail)).PrivateKey = none ∧
    handleU2FAuthenticate demoEnv ⟨0, 2, 3, 0⟩
        (demoChallenge ++ demoApplication ++
          (9 :: demoKeyHandle.tail).length :: (9 :: demoKeyHandle.tail)) demoWorld
      = some ([0x6A, 0x80], demoWorld) ∧
    (demoEnv.openKeyHandle demoWorld demoKeyHandle).ApplicationID ≠ demoChallenge ∧
    handleU2FAuthenticate demoEnv ⟨0, 2, 8, 0⟩
        (demoChallenge ++ demoChallenge ++ demoKeyHandle.length :: demoKeyHandle) demoWorld
      = some ([0x6A, 0x80], demoWorld) :=
  ⟨by decide, by decide, by decide,
   C6_authenticate_wrong_data demoEnv ⟨0, 2, 3, 0⟩ demoChallenge demoApplication
     (9 :: demoKeyHandle.tail) demoWorld (by decide) (by decide) (Or.inl (by decide)),
   by decide,
   C6_authenticate_wrong_data demoEnv ⟨0, 2, 8, 0⟩ demoChallenge demoChallenge demoKeyHandle
     demoWorld (by decide) (by decide) (Or.inr (by decide))⟩

/-- C7: for every AUTHENTICATE request with P1 = `07` (check-only) whose key
handle opens to a private key that parses and to the application of the
request, `handleU2FAuthenticate` returns exactly `69 85` and the world it
returns is the one it was given, so the authentication counter is
unchanged. -/
theorem C7_authenticate_check_only {σ : Type} (env : Env σ) (header : U2FMessageHeader)
    (challenge application keyHandle encodedPrivateKey : Bytes) (privateKey : PrivateKey) (s : σ)
    (hc : challenge.length = 32) (ha : application.length = 32)
    (hp1 : header.Param1 = 0x07)
    (hopen : (env.openKeyHandle s keyHandle).PrivateKey = some encodedPrivateKey)
    (happ : (env.openKeyHandle s keyHandle).ApplicationID = application)
    (hparse : env.parseECPrivateKey encodedPrivateKey = some privateKey) :
    handleU2FAuthenticate env header (challenge ++ application ++ keyHandle.length :: keyHandle) s
      = some ([0x69, 0x85], s) := by
  rw [authenticate_eq env header challenge application keyHandle s hc ha]
  simp [hopen, happ, hparse, hp1]

set_option maxRecDepth 100000 in
/-- C7 at the handle of the seed scenario. -/
theorem C7_authenticate_check_only_witness :
    demoChallenge.length = 32 ∧ demoApplication.length = 32 ∧
    (⟨0, 2, 7, 0⟩ : U2FMessageHeader).Param1 = 0x07 ∧
    (demoEnv.openKeyHandle demoWorld demoKeyHandle).PrivateKey = some [5, 7, 9] ∧
    (demoEnv.openKeyHandle demoWorld demoKeyHandle).ApplicationID = demoApplication ∧
    demoEnv.parseECPrivateKey [5, 7, 9] = some ⟨⟨7, 9⟩, 5⟩ ∧
    handleU2FAuthenticate demoEnv ⟨0, 2, 7, 0⟩
        (demoChallenge ++ demoApplication ++ demoKeyHandle.length :: demoKeyHandle) demoWorld
      = some ([0x69, 0x85], demoWorld) :=
  ⟨by decide, by decide, rfl, by decide, by decide, rfl,
   C7_authenticate_check_only demoEnv ⟨0, 2, 7, 0⟩ demoChallenge demoApplication demoKeyHandle
     [5, 7, 9] ⟨⟨7, 9⟩, 5⟩ demoWorld (by decide) (by decide) rfl (by decide) (by decide) rfl⟩

/-- C8: for every AUTHENTICATE request with P1 in `03`, `08` and a valid key
handle for the request's application, the response is exactly
`01 ++ BE32(c) ++ sig ++ 90 00`, where `c` is the value of one single advance
of the global authentication counter and `sig` is the signature by the
handle's private key over `application ++ 01 ++ BE32(c) ++ challenge`; the
counter in the response and the one in the signed data are the same `c`. -/
theorem C8_authenticate_sign {σ : Type} (env : Env σ) (header : U2FMessageHeader)
    (challenge application keyHandle encodedPrivateKey signature : Bytes)
    (privateKey : PrivateKey) (counter : Nat) (s s1 s2 : σ)
    (hc : challenge.length = 32) (ha : application.length = 32)
    (hp1 : header.Param1 = 0x03 ∨ header.Param1 = 0x08)
    (hopen : (env.openKeyHandle s keyHandle).PrivateKey = some encodedPrivateKey)
    (happ : (env.openKeyHandle s keyHandle).ApplicationID = application)
    (hparse : env.parseECPrivateKey encodedPrivateKey = some privateKey)
    (hctr : env.newAuthenticationCounterId s = (counter, s1))
    (hsign : env.sign privateKey (application ++ [1] ++ toBE 4 counter ++ challenge) s1
      = (signature, s2)) :
    handleU2FAuthenticate env header (challenge ++ application ++ keyHandle.length :: keyHandle) s
      = some ([1] ++ toBE 4 counter ++ signature ++ [0x90, 0x00], s2) := by
  rw [authenticate_eq env header challenge application keyHandle s hc ha]
  have hne : header.Param1 ≠ 0x07 := by
    rcases hp1 with h | h <;> rw [h] <;> decide
  simp only [hopen, happ, hparse, hctr, hsign, ne_eq, not_true_eq_false, if_false, hne]

set_option maxRecDepth 100000 in
/-- C8 at the handle of the seed scenario with P1 = `03`: the counter goes
from 41 to 42 and `00 00 00 2A` is both sent and signed. -/
theorem C8_authenticate_sign_witness :
    demoChallenge.length = 32 ∧ demoApplication.length = 32 ∧
    (demoEnv.openKeyHandle demoWorld demoKeyHandle).PrivateKey = some [5, 7, 9] ∧
    (demoEnv.openKeyHandle demoWorld demoKeyHandle).ApplicationID = demoApplication ∧
    demoEnv.parseECPrivateKey [5, 7, 9] = some ⟨⟨7, 9⟩, 5⟩ ∧
    demoEnv.newAuthenticationCounterId demoWorld
      = (42, { demoWorld with AuthenticationCounter := 42 }) ∧
    demoEnv.sign ⟨⟨7, 9⟩, 5⟩ (demoApplication ++ [1] ++ toBE 4 42 ++ demoChallenge)
        { demoWorld with AuthenticationCounter := 42 }
      = ([5, 69], { demoWorld with AuthenticationCounter := 42, Signatures := 1 }) ∧
    handleU2FAuthenticate demoEnv ⟨0, 2, 3, 0⟩
        (demoChallenge ++ demoApplication ++ demoKeyHandle.length :: demoKeyHandle) demoWorld
      = some ([1] ++ toBE 4 42 ++ [5, 69] ++ [0x90, 0x00],
          { demoWorld with AuthenticationCounter := 42, Signatures := 1 }) :=
  ⟨by decide, by decide, by decide, by decide, rfl, by decide, by decide,
   C8_authenticate_sign demoEnv ⟨0, 2, 3, 0⟩ demoChallenge demoApplication demoKeyHandle
     [5, 7, 9] [5, 69] ⟨⟨7, 9⟩, 5⟩ 42 demoWorld { demoWorld with AuthenticationCounter := 42 }
     { demoWorld with AuthenticationCounter := 42, Signatures := 1 }
     (by decide) (by decide) (Or.inl rfl) (by decide) (by decide) rfl (by decide) (by decide)⟩

/-- C9: REGISTER and AUTHENTICATE agree on key handles.  Assuming the sealed
handle of this registration opens to the handle that was sealed (and the
encoded key parses back, and the handle fits the one-byte length field of an
AUTHENTICATE request), for every challenge and application `a` the key
handle read from the reply of REGISTER(challenge, a), presented in a
check-only AUTHENTICATE with application `a`, yields `69 85`, and presented
with any application different from `a` yields `6A 80`. -/
theorem C9_register_then_authenticate {σ : Type} (env : Env σ) (header : U2FMessageHeader)
    (challenge application : Bytes) (s s1 s2 s3 s4 : σ) (privateKey parsedKey : PrivateKey)
    (publicKey encodedPrivateKey keyHandle cert signature : Bytes)
    (hc : challenge.length = 32) (ha : application.length = 32)
    (hkey : env.newPrivateKey s = (privateKey, s1))
    (hpub : ellipticMarshal privateKey.PublicKey = some publicKey)
    (hmarshal : env.marshalECPrivateKey privateKey = some encodedPrivateKey)
    (hseal : env.sealKeyHandle ⟨some encodedPrivateKey, application⟩ s1 = (keyHandle, s2))
    (hlen : keyHandle.length < 256)
    (hcert : env.createAttestationCertificiate privateKey s2 = (cert, s3))
    (hsign : env.sign privateKey ([0] ++ application ++ challenge ++ keyHandle ++ publicKey) s3
      = (signature, s4))
    (hopen : ∀ s', env.openKeyHandle s' keyHandle = ⟨some encodedPrivateKey, application⟩)
    (hparse : env.parseECPrivateKey encodedPrivateKey = some parsedKey) :
    ∃ response,
      handleU2FRegister env header (challenge ++ application) s = some (response, s4) ∧
      (response.drop 67).take (response.getD 66 0) = keyHandle ∧
      (∀ (header2 : U2FMessageHeader) (challenge2 : Bytes) (s' : σ),
        challenge2.length = 32 → header2.Param1 = 0x07 →
        handleU2FAuthenticate env header2
            (challenge2 ++ application ++ keyHandle.length :: keyHandle) s'
          = some ([0x69, 0x85], s')) ∧
      (∀ (header2 : U2FMessageHeader) (challenge2 application2 : Bytes) (s' : σ),
        challenge2.length = 32 → application2.length = 32 → application2 ≠ application →
        handleU2FAuthenticate env header2
            (challenge2 ++ application2 ++ keyHandle.length :: keyHandle) s'
          = some ([0x6A, 0x80], s')) := by
  have hform := ellipticMarshal_form _ _ hpub
  have hreg := register_eq env header challenge application s s1 s2 s3 s4 privateKey publicKey
    encodedPrivateKey keyHandle cert signature hc ha hkey hpub hmarshal hseal hcert hsign
  rw [Nat.mod_eq_of_lt hlen] at hreg
  have hh := register_reply_handle publicKey keyHandle (cert ++ signature ++ [0x90, 0x00]) hform.2
  simp only [← List.append_assoc] at hh
  refine ⟨_, hreg, ?_, ?_, ?_⟩
  · rw [hh.1]; exact hh.2
  · intro header2 challenge2 s' hc2 hp1
    rw [authenticate_eq env header2 challenge2 application keyHandle s' hc2 ha]
    simp [hopen s', hparse, hp1]
  · intro header2 challenge2 application2 s' hc2 ha2 hne
    rw [authenticate_eq env header2 challenge2 application2 keyHandle s' hc2 ha2]
    simp [hopen s', Ne.symm hne]

set_option maxRecDepth 100000 in
/-- C9 at the seed scenario: the handle of the registration for `11` x 32
answers `69 85` to a check-only request for that application and `6A 80` to
one for another application. -/
theorem C9_register_then_authenticate_witness :
    demoChallenge.length = 32 ∧ demoApplication.length = 32 ∧ demoKeyHandle.length < 256 ∧
    (∀ s', demoEnv.openKeyHandle s' demoKeyHandle = ⟨some [5, 7, 9], demoApplication⟩) ∧
    demoEnv.parseECPrivateKey [5, 7, 9] = some ⟨⟨7, 9⟩, 5⟩ ∧
    ∃ response,
      handleU2FRegister demoEnv ⟨0, 1, 0, 0⟩ (demoChallenge ++ demoApplication) demoWorld
        = some (response, { demoWorld with Seed := 1, Signatures := 1 }) ∧
      (response.drop 67).take (response.getD 66 0) = demoKeyHandle ∧
      (∀ (header2 : U2FMessageHeader) (challenge2 : Bytes) (s' : DemoWorld),
        challenge2.length = 32 → header2.Param1 = 0x07 →
        handleU2FAuthenticate demoEnv header2
            (challenge2 ++ demoApplication ++ demoKeyHandle.length :: demoKeyHandle) s'
          = some ([0x69, 0x85], s')) ∧
      (∀ (header2 : U2FMessageHeader) (challenge2 application2 : Bytes) (s' : DemoWorld),
        challenge2.length = 32 → application2.length = 32 → application2 ≠ demoApplication →
        handleU2FAuthenticate demoEnv header2
            (challenge2 ++ application2 ++ demoKeyHandle.length :: demoKeyHandle) s'
          = some ([0x6A, 0x80], s')) :=
  ⟨by decide, by decide, by decide,
   fun _ => (by decide : demoOpen demoKeyHandle = ⟨some [5, 7, 9], demoApplication⟩), rfl,
   C9_register_then_authenticate demoEnv ⟨0, 1, 0, 0⟩ demoChallenge demoApplication demoWorld
      { demoWorld with Seed := 1 } { demoWorld with Seed := 1 } { demoWorld with Seed := 1 }
      { demoWorld with Seed := 1, Signatures := 1 } ⟨⟨7, 9⟩, 5⟩ ⟨⟨7, 9⟩, 5⟩ demoPublicKey [5, 7, 9]
      demoKeyHandle [0x30, 7, 9] [5, 167] (by decide) (by decide) rfl (by decide) rfl rfl
      (by decide) rfl (by decide)
      (fun _ => (by decide : demoOpen demoKeyHandle = ⟨some [5, 7, 9], demoApplication⟩)) rfl⟩

/-- C10: for every decodable MAKE_CREDENTIAL request, the status byte of the
reply is `00` if and only if some `pubKeyCredParams` entry has `alg = -7` and
`type = "public-key"`; otherwise (an empty or absent list, `alg = -8` only)
the reply is exactly the single byte `26` and the world is returned as it
was given, so no credential source is created.  With such an entry, and a
CBOR encoder that accepts maps, the request is answered, with status `00`,
after `newCredentialSource`. -/
theorem C10_make_credential_algorithm {σ : Type} (env : Env σ) (data : Bytes)
    (args : CTAPMakeCredentialArgs) (s : σ)
    (hdec : env.unmarshalMakeCredentialArgs data = some args) :
    ((¬∃ p ∈ args.PubKeyCredParams, p.Algorithm = -7 ∧ p.Type_ = "public-key") →
      handleMakeCredential env data s = some ([0x26], s)) ∧
    (∀ out s', handleMakeCredential env data s = some (out, s') →
      (out.head? = some 0x00 ↔
        ∃ p ∈ args.PubKeyCredParams, p.Algorithm = -7 ∧ p.Type_ = "public-key")) ∧
    ((∃ p ∈ args.PubKeyCredParams, p.Algorithm = -7 ∧ p.Type_ = "public-key") →
      (∀ kvs, (env.cborMarshal (Cbor.map kvs)).isSome = true) →
      ∃ body, handleMakeCredential env data s =
        some (0x00 :: body, (env.newCredentialSource args.Rp.Id args.User.Id s).2)) := by
  have hunsupported : (¬∃ p ∈ args.PubKeyCredParams, p.Algorithm = -7 ∧ p.Type_ = "public-key") →
      handleMakeCredential env data s = some ([0x26], s) := by
    intro hno
    apply makeCredential_unsupported env data args s hdec
    cases hs : supportedAlgorithm args.PubKeyCredParams with
    | false => rfl
    | true => exact absurd ((supportedAlgorithm_iff _).mp hs) hno
  refine ⟨hunsupported, ?_, ?_⟩
  · intro out s' hout
    by_cases hyes : ∃ p ∈ args.PubKeyCredParams, p.Algorithm = -7 ∧ p.Type_ = "public-key"
    · have := makeCredential_supported env data args s s' out hdec
        ((supportedAlgorithm_iff _).mpr hyes) hout
      exact ⟨fun _ => hyes, fun _ => this.1⟩
    · have h26 := hunsupported hyes
      rw [h26] at hout
      simp only [Option.some.injEq, Prod.mk.injEq] at hout
      constructor
      · intro h0
        rw [← hout.1] at h0
        simp at h0
      · intro h
        exact absurd h hyes
  · intro hyes hmap
    exact makeCredential_returns env data args s hdec ((supportedAlgorithm_iff _).mpr hyes) hmap

set_option maxRecDepth 100000 in
/-- C10 at the two seed requests: `alg = -8` only is answered `26` with the
world unchanged, `alg = -7` is answered with status `00`. -/
theorem C10_make_credential_algorithm_witness :
    demoEnv.unmarshalMakeCredentialArgs [8] = some (demoArgs (-8)) ∧
    (¬∃ p ∈ (demoArgs (-8)).PubKeyCredParams, p.Algorithm = -7 ∧ p.Type_ = "public-key") ∧
    handleMakeCredential demoEnv [8] demoWorld = some ([0x26], demoWorld) ∧
    demoEnv.unmarshalMakeCredentialArgs [7] = some (demoArgs (-7)) ∧
    (∃ p ∈ (demoArgs (-7)).PubKeyCredParams, p.Algorithm = -7 ∧ p.Type_ = "public-key") ∧
    (∀ kvs, (demoEnv.cborMarshal (Cbor.map kvs)).isSome = true) ∧
    (∃ body, handleMakeCredential demoEnv [7] demoWorld =
      some (0x00 :: body, (demoEnv.newCredentialSource "example.com" [1] demoWorld).2)) ∧
    ((handleMakeCredential demoEnv [7] demoWorld).map (fun r => r.1.head?) = some (some 0x00)) :=
  ⟨rfl, by decide,
   (C10_make_credential_algorithm demoEnv [8] (demoArgs (-8)) demoWorld rfl).1 (by decide),
   rfl, by decide, fun _ => rfl,
   (C10_make_credential_algorithm demoEnv [7] (demoArgs (-7)) demoWorld rfl).2.2 (by decide)
     (fun _ => rfl),
   by decide⟩

/-! ## CTAP2 lemmas -/

/-- GET_INFO marshals a map with the versions under key 1 and the AAGUID
under key 3, and with an empty options map under key 4 only when the library
keeps empty structs. -/
theorem handleGetInfo_eq {σ : Type} (env : Env σ) (data : Bytes) (s : σ) :
    handleGetInfo env data s =
      (env.cborMarshal (Cbor.map
        ([(Cbor.int 1, Cbor.array [Cbor.text "FIDO_2_0", Cbor.text "U2F_V2"]),
          (Cbor.int 3, Cbor.bytes AAGUID)] ++
          (if env.omitEmptyStruct = true then [] else [(Cbor.int 4, Cbor.map [])])))).map
        (fun body => (0x00 :: body, s)) := by
  have hitem : getInfoResponse.toCbor env.omitEmptyStruct = Cbor.map
      ([(Cbor.int 1, Cbor.array [Cbor.text "FIDO_2_0", Cbor.text "U2F_V2"]),
        (Cbor.int 3, Cbor.bytes AAGUID)] ++
        (if env.omitEmptyStruct = true then [] else [(Cbor.int 4, Cbor.map [])])) := by
    cases env.omitEmptyStruct <;> rfl
  unfold handleGetInfo
  simp only [hitem]
  generalize env.cborMarshal _ = r
  cases r <;> rfl

/-- Every reply of the CTAP2 dispatcher is the single byte `26` or starts
with the status `00`. -/
theorem handleMessage_reply_form {σ : Type} (env : Env σ) (m : Bytes) (s s' : σ) (out : Bytes)
    (h : handleMessage env m s = some (out, s')) : out = [0x26] ∨ out.head? = some 0x00 := by
  unfold handleMessage at h
  split at h
  · cases h
  · split at h
    · unfold handleMakeCredential at h
      split at h
      · cases h
      · dsimp only at h
        split at h
        · simp only [Option.some.injEq, Prod.mk.injEq] at h
          exact Or.inl (by rw [← h.1]; rfl)
        · split at h
          · cases h
          · split at h
            · cases h
            · simp only [Option.some.injEq, Prod.mk.injEq] at h
              exact Or.inr (by rw [← h.1]; rfl)
    · split at h
      · rw [handleGetInfo_eq] at h
        cases hm : env.cborMarshal _ with
        | none => rw [hm] at h; cases h
        | some body =>
          rw [hm] at h
          simp only [Option.map_some', Option.some.injEq, Prod.mk.injEq] at h
          exact Or.inr (by rw [← h.1]; rfl)
      · cases h

theorem ofBE_cons (x : Nat) (b : Bytes) : ofBE (x :: b) = x * 256 ^ b.length + ofBE b := by
  have key : ∀ (l : Bytes) (a : Nat),
      l.foldl (fun acc y => acc * 256 + y) a = a * 256 ^ l.length + l.foldl (fun acc y => acc * 256 + y) 0 := by
    intro l
    induction l with
    | nil => intro a; simp
    | cons y ys ih =>
      intro a
      simp only [List.foldl_cons, List.length_cons]
      rw [ih (a * 256 + y), ih (0 * 256 + y)]
      ring
  unfold ofBE
  simp only [List.foldl_cons]
  rw [key b (0 * 256 + x)]
  ring

theorem bigIntBytesAux_value (fuel : Nat) :
    ∀ (n : Nat) (acc : Bytes), n ≤ fuel →
      ofBE (bigIntBytesAux fuel n acc) = n * 256 ^ acc.length + ofBE acc := by
  induction fuel with
  | zero =>
    intro n acc hn
    have : n = 0 := by omega
    subst this
    simp [bigIntBytesAux]
  | succ fuel ih =>
    intro n acc hn
    unfold bigIntBytesAux
    by_cases h0 : n = 0
    · subst h0; simp
    · rw [if_neg h0]
      have hle : n / 256 ≤ fuel := by
        omega
      rw [ih (n / 256) (n % 256 :: acc) hle, ofBE_cons, List.length_cons, pow_succ]
      have hn' : n = 256 * (n / 256) + n % 256 := (Nat.div_add_mod n 256).symm
      generalize 256 ^ acc.length = P
      generalize ofBE acc = V
      nth_rewrite 3 [hn']
      ring

/-- The bytes of `big.Int.Bytes` are a big-endian form of the number. -/
theorem bigIntBytes_value (n : Nat) : ofBE (bigIntBytes n) = n := by
  have := bigIntBytesAux_value n n [] (Nat.le_refl n)
  simpa [bigIntBytes, ofBE] using this

theorem handle_ne_ins_not_supported {σ : Type} (env : Env σ) (m : Bytes) (s s' : σ) :
    handleU2FMessage env m s ≠ some ([0x6D, 0x00], s') := by
  intro hm
  unfold handleU2FMessage at hm
  split at hm
  · cases hm
  · split at hm
    · simp only [version_reply, Option.some.injEq, Prod.mk.injEq] at hm
      exact absurd hm.1 (by decide)
    · split at hm
      · have := register_reply_head env _ _ _ _ _ hm
        simp at this
      · split at hm
        · have := authenticate_reply_form env _ _ _ _ _ hm
          simp at this
        · cases hm

/-- The authenticator data of MAKE_CREDENTIAL, as the code builds it. -/
theorem makeCredential_eq {σ : Type} (env : Env σ) (data : Bytes) (args : CTAPMakeCredentialArgs)
    (s s1 : σ) (credentialSource : CredentialSource) (cose responseBytes : Bytes)
    (hdec : env.unmarshalMakeCredentialArgs data = some args)
    (hsup : supportedAlgorithm args.PubKeyCredParams = true)
    (hsrc : env.newCredentialSource args.Rp.Id args.User.Id s = (credentialSource, s1))
    (hcose : ctapEncodeKeyAsCOSE env credentialSource.PrivateKey.PublicKey = some cose)
    (hresp : env.cborMarshal (Cbor.map [(Cbor.int 1, Cbor.text "none"),
        (Cbor.int 2, Cbor.bytes (env.sha256 (stringBytes args.Rp.Id) ++ [0x45] ++
          toBE 4 (credentialSource.SignatureCounter % 2 ^ 32).toNat ++ AAGUID ++
          toBE 2 (credentialSource.ID.length % 65536) ++ credentialSource.ID ++ cose)),
        (Cbor.int 3, Cbor.map [])]) = some responseBytes) :
    handleMakeCredential env data s = some (0x00 :: responseBytes, s1) := by
  have hflags : CTAP_AUTH_DATA_FLAG_USER_PRESENT ||| CTAP_AUTH_DATA_FLAG_USER_VERIFIED |||
      CTAP_AUTH_DATA_FLAG_ATTESTED_DATA_INCLUDED = 0x45 := by decide
  have hresp' : env.cborMarshal (Cbor.map [(Cbor.int 1, Cbor.text "none"),
        (Cbor.int 2, Cbor.bytes (env.sha256 (stringBytes args.Rp.Id) ++ (0x45 ::
          (toBE 4 (credentialSource.SignatureCounter % 2 ^ 32).toNat ++ (AAGUID ++
          (toBE 2 (credentialSource.ID.length % 65536) ++ (credentialSource.ID ++ cose))))))),
        (Cbor.int 3, Cbor.map [])]) = some responseBytes := by
    simpa using hresp
  unfold handleMakeCredential
  simp only [hdec, hsup, hsrc, hcose, hflags, Bool.not_true, Bool.false_eq_true, if_false,
    CTAPMakeCredentialReponse.toCbor, flatten, List.append_nil, List.singleton_append,
    CTAP1_ERR_SUCCESS]
  rw [hresp']

/-- C11: for every successful MAKE_CREDENTIAL, the authenticatorData placed
in the response (under key 2 of the map that is encoded after the status
`00`) is exactly `SHA256(rp.id)` (32 bytes) ++ the flags byte `45` (UP, UV,
AT) ++ the signature counter of the new credential as 4 big-endian bytes ++
the AAGUID `75 6C 5A F5 EC A6 01 A3 2F C6 D3 0C E2 F2 01 C5` ++
BE16(length of the credential id) ++ the credential id ++ the COSE encoding
of the credential public key, so that its length is
55 + |credential id| + |COSE key|. -/
theorem C11_make_credential_auth_data {σ : Type} (env : Env σ) (data : Bytes)
    (args : CTAPMakeCredentialArgs) (s s1 : σ) (credentialSource : CredentialSource)
    (cose authenticatorData responseBytes : Bytes)
    (hdec : env.unmarshalMakeCredentialArgs data = some args)
    (hsup : ∃ p ∈ args.PubKeyCredParams, p.Algorithm = -7 ∧ p.Type_ = "public-key")
    (hsrc : env.newCredentialSource args.Rp.Id args.User.Id s = (credentialSource, s1))
    (hcose : ctapEncodeKeyAsCOSE env credentialSource.PrivateKey.PublicKey = some cose)
    (hsha : (env.sha256 (stringBytes args.Rp.Id)).length = 32)
    (hid : credentialSource.ID.length < 65536)
    (hauth : authenticatorData = env.sha256 (stringBytes args.Rp.Id) ++ [0x45] ++
      toBE 4 (credentialSource.SignatureCounter % 2 ^ 32).toNat ++
      [0x75, 0x6C, 0x5A, 0xF5, 0xEC, 0xA6, 0x01, 0xA3, 0x2F, 0xC6, 0xD3, 0x0C, 0xE2, 0xF2, 0x01,
        0xC5] ++
      toBE 2 credentialSource.ID.length ++ credentialSource.ID ++ cose)
    (hresp : env.cborMarshal (Cbor.map [(Cbor.int 1, Cbor.text "none"),
        (Cbor.int 2, Cbor.bytes authenticatorData), (Cbor.int 3, Cbor.map [])])
      = some responseBytes) :
    handleMakeCredential env data s = some (0x00 :: responseBytes, s1) ∧
    authenticatorData.length = 55 + credentialSource.ID.length + cose.length := by
  have haaguid : AAGUID = [0x75, 0x6C, 0x5A, 0xF5, 0xEC, 0xA6, 0x01, 0xA3, 0x2F, 0xC6, 0xD3,
      0x0C, 0xE2, 0xF2, 0x01, 0xC5] := rfl
  subst hauth
  constructor
  · apply makeCredential_eq env data args s s1 credentialSource cose responseBytes hdec
      ((supportedAlgorithm_iff _).mpr hsup) hsrc hcose
    rw [Nat.mod_eq_of_lt hid, haaguid]
    exact hresp
  · simp only [List.length_append, hsha, toBE_length, List.length_cons, List.length_nil]

set_option maxRecDepth 100000 in
/-- C11 at the seed request with `alg = -7` and the RFC 8949 encoder: the
credential id is one byte, the COSE key 13 bytes, the authenticator data 69
bytes. -/
theorem C11_make_credential_auth_data_witness :
    cborEnv.unmarshalMakeCredentialArgs [7] = some (demoArgs (-7)) ∧
    (∃ p ∈ (demoArgs (-7)).PubKeyCredParams, p.Algorithm = -7 ∧ p.Type_ = "public-key") ∧
    (cborEnv.sha256 (stringBytes "example.com")).length = 32 ∧
    handleMakeCredential cborEnv [7] demoWorld =
      some (0x00 :: cborEncode (Cbor.map [(Cbor.int 1, Cbor.text "none"),
        (Cbor.int 2, Cbor.bytes (List.replicate 32 11 ++ [0x45] ++ [0, 0, 0, 0] ++
          [0x75, 0x6C, 0x5A, 0xF5, 0xEC, 0xA6, 0x01, 0xA3, 0x2F, 0xC6, 0xD3, 0x0C, 0xE2, 0xF2,
            0x01, 0xC5] ++
          [0, 1] ++ [0] ++ [0xA5, 1, 2, 3, 0x26, 0x20, 1, 0x21, 0x41, 7, 0x22, 0x41, 9])),
        (Cbor.int 3, Cbor.map [])]), { demoWorld with Seed := 1 }) ∧
    (List.replicate 32 11 ++ [0x45] ++ [0, 0, 0, 0] ++
          [0x75, 0x6C, 0x5A, 0xF5, 0xEC, 0xA6, 0x01, 0xA3, 0x2F, 0xC6, 0xD3, 0x0C, 0xE2, 0xF2,
            0x01, 0xC5] ++
          [0, 1] ++ [0] ++ [0xA5, 1, 2, 3, 0x26, 0x20, 1, 0x21, 0x41, 7, 0x22, 0x41, 9] : Bytes).length
      = 55 + 1 + 13 :=
  have h := C11_make_credential_auth_data cborEnv [7] (demoArgs (-7)) demoWorld
    { demoWorld with Seed := 1 }
    ⟨"public-key", [0], ⟨⟨7, 9⟩, 5⟩, ⟨"example.com", ""⟩, ⟨[1], "", ""⟩, 0⟩
    [0xA5, 1, 2, 3, 0x26, 0x20, 1, 0x21, 0x41, 7, 0x22, 0x41, 9]
    (List.replicate 32 11 ++ [0x45] ++ [0, 0, 0, 0] ++
      [0x75, 0x6C, 0x5A, 0xF5, 0xEC, 0xA6, 0x01, 0xA3, 0x2F, 0xC6, 0xD3, 0x0C, 0xE2, 0xF2,
        0x01, 0xC5] ++
      [0, 1] ++ [0] ++ [0xA5, 1, 2, 3, 0x26, 0x20, 1, 0x21, 0x41, 7, 0x22, 0x41, 9])
    _ rfl (by decide) rfl (by decide) (by decide) (by decide) (by decide) rfl
  ⟨rfl, by decide, by decide, h.1, h.2⟩

/-- C12: for every CTAP2 message whose first byte is `04`, whatever bytes
follow, `handleMessage` returns the status byte `00` followed by the CBOR
encoding of a map in which key 1 is the list `["FIDO_2_0", "U2F_V2"]` (in
that order) and key 3 is the 16-byte AAGUID; the reply does not depend on the
bytes after the command byte nor on the device state, which is returned as
given. -/
theorem C12_get_info_reply {σ : Type} (env : Env σ) (rest : Bytes) (s : σ) :
    handleMessage env (0x04 :: rest) s =
      (env.cborMarshal (Cbor.map
        ([(Cbor.int 1, Cbor.array [Cbor.text "FIDO_2_0", Cbor.text "U2F_V2"]),
          (Cbor.int 3, Cbor.bytes AAGUID)] ++
          (if env.omitEmptyStruct = true then [] else [(Cbor.int 4, Cbor.map [])])))).map
        (fun body => (0x00 :: body, s)) ∧
    AAGUID.length = 16 ∧
    handleMessage cborEnv [0x04] demoWorld =
      some ([0x00, 0xA2, 0x01, 0x82,
          0x68, 0x46, 0x49, 0x44, 0x4F, 0x5F, 0x32, 0x5F, 0x30,
          0x66, 0x55, 0x32, 0x46, 0x5F, 0x56, 0x32,
          0x03, 0x50, 0x75, 0x6C, 0x5A, 0xF5, 0xEC, 0xA6, 0x01, 0xA3, 0x2F, 0xC6, 0xD3, 0x0C,
          0xE2, 0xF2, 0x01, 0xC5], demoWorld) := by
  refine ⟨?_, rfl, by decide⟩
  have h := handleGetInfo_eq env rest s
  simpa [handleMessage, CTAP_COMMAND_GET_INFO, CTAP_COMMAND_MAKE_CREDENTIAL] using h

/-- C13 (as stated) fails: the reply to GET_INFO, written out with the
RFC 8949 encoder, is a map of two entries (`A2`), keys 1 and 3, with no key
4; with a library that keeps empty structs the map has a key 4 whose value is
the empty map (`04 A0`); in neither is there an `rk` or `up` entry, and the
options of the response have `rk` and `up` false. -/
theorem C13_get_info_options_counterexample :
    handleMessage cborEnv [0x04] demoWorld =
      some ([0x00, 0xA2, 0x01, 0x82,
          0x68, 0x46, 0x49, 0x44, 0x4F, 0x5F, 0x32, 0x5F, 0x30,
          0x66, 0x55, 0x32, 0x46, 0x5F, 0x56, 0x32,
          0x03, 0x50, 0x75, 0x6C, 0x5A, 0xF5, 0xEC, 0xA6, 0x01, 0xA3, 0x2F, 0xC6, 0xD3, 0x0C,
          0xE2, 0xF2, 0x01, 0xC5], demoWorld) ∧
    handleMessage cborKeepEnv [0x04] demoWorld =
      some ([0x00, 0xA3, 0x01, 0x82,
          0x68, 0x46, 0x49, 0x44, 0x4F, 0x5F, 0x32, 0x5F, 0x30,
          0x66, 0x55, 0x32, 0x46, 0x5F, 0x56, 0x32,
          0x03, 0x50, 0x75, 0x6C, 0x5A, 0xF5, 0xEC, 0xA6, 0x01, 0xA3, 0x2F, 0xC6, 0xD3, 0x0C,
          0xE2, 0xF2, 0x01, 0xC5, 0x04, 0xA0], demoWorld) ∧
    getInfoResponse.Options.CanResidentKey = false ∧
    getInfoResponse.Options.CanUserPresence = false := by
  decide

/-- C13 (amended): `handleGetInfo` leaves the options of the response at
their zero value, `plat`, `rk`, `clientPin`, `up` and `uv` all false, so the
options encode to the empty map; the response map has keys 1 and 3, and a
key 4, holding that empty map, only with a CBOR library that does not leave
out an empty struct. -/
theorem C13_get_info_options_empty {σ : Type} (env : Env σ) (data : Bytes) (s : σ) :
    getInfoResponse.Options = ⟨false, false, false, false, false⟩ ∧
    getInfoResponse.Options.toCbor = Cbor.map [] ∧
    getInfoResponse.toCbor true = Cbor.map
      [(Cbor.int 1, Cbor.array [Cbor.text "FIDO_2_0", Cbor.text "U2F_V2"]),
        (Cbor.int 3, Cbor.bytes AAGUID)] ∧
    getInfoResponse.toCbor false = Cbor.map
      [(Cbor.int 1, Cbor.array [Cbor.text "FIDO_2_0", Cbor.text "U2F_V2"]),
        (Cbor.int 3, Cbor.bytes AAGUID), (Cbor.int 4, Cbor.map [])] ∧
    handleGetInfo env data s =
      (env.cborMarshal (getInfoResponse.toCbor env.omitEmptyStruct)).map
        (fun body => (0x00 :: body, s)) := by
  refine ⟨rfl, rfl, rfl, rfl, ?_⟩
  unfold handleGetInfo
  cases hr : env.cborMarshal (getInfoResponse.toCbor env.omitEmptyStruct) <;>
    simp [hr, CTAP1_ERR_SUCCESS]

/-- C14 (as stated) fails: the messages `06`, `07` and `08` get no reply at
all; `handleMessage` panics instead of answering with status `01`. -/
theorem C14_invalid_command_counterexample :
    handleMessage demoEnv [0x06] demoWorld = none ∧
    handleMessage demoEnv [0x07] demoWorld = none ∧
    handleMessage demoEnv [0x08] demoWorld = none ∧
    (handleMessage demoEnv [0x06] demoWorld).map (fun r => r.1.head?) ≠ some (some 0x01) := by
  decide

/-- C14 (amended): for every CTAP2 message whose command byte is other than
`01` and `04`, among them `06`, `07` and `08`, and for the empty message,
`handleMessage` panics and gives no reply; and no reply of `handleMessage`
has the status `01`: a reply is the single byte `26` or starts with `00`. -/
theorem C14_unknown_command_panics {σ : Type} (env : Env σ) (s : σ) :
    (∀ command rest, command ≠ 0x01 → command ≠ 0x04 →
      handleMessage env (command :: rest) s = none) ∧
    (∀ rest, handleMessage env (0x06 :: rest) s = none ∧
      handleMessage env (0x07 :: rest) s = none ∧ handleMessage env (0x08 :: rest) s = none) ∧
    handleMessage env [] s = none ∧
    (∀ m out s', handleMessage env m s = some (out, s') →
      out = [0x26] ∨ out.head? = some 0x00) := by
  have hgen : ∀ command rest, command ≠ 0x01 → command ≠ 0x04 →
      handleMessage env (command :: rest) s = none := by
    intro command rest h1 h4
    simp [handleMessage, CTAP_COMMAND_MAKE_CREDENTIAL, CTAP_COMMAND_GET_INFO, h1, h4]
  refine ⟨hgen, ?_, rfl, ?_⟩
  · intro rest
    exact ⟨hgen 6 rest (by decide) (by decide), hgen 7 rest (by decide) (by decide),
      hgen 8 rest (by decide) (by decide)⟩
  · intro m out s' h
    exact handleMessage_reply_form env m s s' out h

/-- C14 (amended) at the command byte `02` (GET_ASSERTION). -/
theorem C14_unknown_command_panics_witness :
    (2 : Nat) ≠ 0x01 ∧ (2 : Nat) ≠ 0x04 ∧ handleMessage demoEnv [0x02, 0xA0] demoWorld = none ∧
    handleMessage demoEnv [8] demoWorld = none ∧
    handleMessage demoEnv [1, 8] demoWorld = some ([0x26], demoWorld) ∧
    (([0x26] : Bytes) = [0x26] ∨ ([0x26] : Bytes).head? = some 0x00) :=
  have h := C14_unknown_command_panics demoEnv demoWorld
  ⟨by decide, by decide, h.1 2 [0xA0] (by decide) (by decide), (h.2.1 []).2.2, by decide,
   h.2.2.2 [1, 8] [0x26] demoWorld (by decide)⟩

/-- C15 (as stated) fails: the well-formed APDU `00 04 00 00` (INS `04`)
gets no reply at all; `handleU2FMessage` panics instead of answering
`6D 00`. -/
theorem C15_ins_not_supported_counterexample :
    IsAPDU ⟨0, 4, 0, 0⟩ [] 0 [0, 4, 0, 0] ∧
    handleU2FMessage demoEnv [0, 4, 0, 0] demoWorld = none ∧
    (handleU2FMessage demoEnv [0, 4, 0, 0] demoWorld).map Prod.fst ≠ some [0x6D, 0x00] :=
  ⟨⟨by decide, by decide, Or.inl ⟨rfl, rfl, rfl⟩⟩, by decide, by decide⟩

/-- C15 (amended): for every well-formed APDU whose INS byte is none of
`01`, `02`, `03`, `handleU2FMessage` panics and gives no reply; and no
message at all is answered with `6D 00`. -/
theorem C15_unknown_ins_panics {σ : Type} (env : Env σ) (h : U2FMessageHeader) (d : Bytes)
    (le : Nat) (m : Bytes) (s : σ) (hm : IsAPDU h d le m)
    (h1 : h.Command ≠ 0x01) (h2 : h.Command ≠ 0x02) (h3 : h.Command ≠ 0x03) :
    handleU2FMessage env m s = none ∧
    (∀ m' s', handleU2FMessage env m' s ≠ some ([0x6D, 0x00], s')) := by
  constructor
  · simp [handleU2FMessage, decode_of_isAPDU env h d le m hm, U2F_COMMAND_VERSION,
      U2F_COMMAND_REGISTER, U2F_COMMAND_AUTHENTICATE, h1, h2, h3]
  · intro m' s'
    exact handle_ne_ins_not_supported env m' s s'

/-- C15 (amended) at the APDU `00 FF 00 00 | 00 | 00 01 | 2A` (INS `FF`,
one byte of data). -/
theorem C15_unknown_ins_panics_witness :
    IsAPDU ⟨0, 255, 0, 0⟩ [42] 0 [0, 255, 0, 0, 0, 0, 1, 42] ∧
    (⟨0, 255, 0, 0⟩ : U2FMessageHeader).Command ≠ 0x01 ∧
    (⟨0, 255, 0, 0⟩ : U2FMessageHeader).Command ≠ 0x02 ∧
    (⟨0, 255, 0, 0⟩ : U2FMessageHeader).Command ≠ 0x03 ∧
    handleU2FMessage demoEnv [0, 255, 0, 0, 0, 0, 1, 42] demoWorld = none :=
  have hm : IsAPDU ⟨0, 255, 0, 0⟩ [42] 0 [0, 255, 0, 0, 0, 0, 1, 42] :=
    ⟨by decide, by decide, Or.inr (Or.inr (Or.inl ⟨by decide, rfl, by decide⟩))⟩
  ⟨hm, by decide, by decide, by decide,
   (C15_unknown_ins_panics demoEnv ⟨0, 255, 0, 0⟩ [42] 0 _ demoWorld hm (by decide) (by decide)
     (by decide)).1⟩

/-- C16: for every P-256 public key with coordinates (X, Y),
`ctapEncodeKeyAsCOSE` returns the CBOR encoding of the five-entry map
`1: 2, 3: -7, -1: 1, -2: bytes of X, -3: bytes of Y`, and of nothing else;
the bytes of a coordinate are its big-endian form as `big.Int.Bytes` gives
it. -/
theorem C16_cose_key_map {σ : Type} (env : Env σ) (publicKey : PublicKey) :
    ctapEncodeKeyAsCOSE env publicKey =
      env.cborMarshal (Cbor.map [(Cbor.int 1, Cbor.int 2), (Cbor.int 3, Cbor.int (-7)),
        (Cbor.int (-1), Cbor.int 1), (Cbor.int (-2), Cbor.bytes (bigIntBytes publicKey.X)),
        (Cbor.int (-3), Cbor.bytes (bigIntBytes publicKey.Y))]) ∧
    ofBE (bigIntBytes publicKey.X) = publicKey.X ∧
    ofBE (bigIntBytes publicKey.Y) = publicKey.Y ∧
    ctapEncodeKeyAsCOSE cborEnv ⟨0x0102, 0xFF⟩ =
      some [0xA5, 0x01, 0x02, 0x03, 0x26, 0x20, 0x01, 0x21, 0x42, 0x01, 0x02, 0x22, 0x41, 0xFF] :=
  ⟨rfl, bigIntBytes_value _, bigIntBytes_value _, by decide⟩

/-! ## Saved state and USB/IP lemmas -/

/-- `DecryptWithPassphrase` on a blob that decodes and whose key derivation
succeeds: what the two decryptions and the last decoding give. -/
theorem decryptWithPassphrase_eq {ρ : Type} (env : StateEnv ρ) (data : Bytes)
    (passphrase : String) (blob : PassphraseEncryptedBlob) (keyEncryptionKey : Bytes)
    (hblob : env.unmarshalBlob data = some blob)
    (hkdf : env.scryptKey (stringBytes passphrase) blob.Salt 32768 8 1 32
      = some keyEncryptionKey) :
    DecryptWithPassphrase env data passphrase =
      match env.decrypt keyEncryptionKey blob.EncryptionKey blob.KeyNonce with
      | none => GoResult.error ["Could not decrypt data", "Could not decrypt encryption key"]
      | some encryptionKey =>
        match env.decrypt encryptionKey blob.EncryptedData blob.DataNonce with
        | none => GoResult.error ["Could not decrypt data", "Could not decrypt data"]
        | some stateBytes =>
          match env.unmarshalConfig stateBytes with
          | none => GoResult.error ["Could not decode JSON"]
          | some state => GoResult.ok state := by
  unfold DecryptWithPassphrase decryptPassphraseBlob
  simp only [hblob, hkdf]
  cases env.decrypt keyEncryptionKey blob.EncryptionKey blob.KeyNonce with
  | none => rfl
  | some encryptionKey =>
    simp only
    cases env.decrypt encryptionKey blob.EncryptedData blob.DataNonce with
    | none => rfl
    | some stateBytes => rfl

/-- A config comes out of `DecryptWithPassphrase` only through both
decryptions and both decodings. -/
theorem decryptWithPassphrase_ok {ρ : Type} (env : StateEnv ρ) (data : Bytes)
    (passphrase : String) (cfg : FIDODeviceConfig)
    (h : DecryptWithPassphrase env data passphrase = GoResult.ok cfg) :
    ∃ blob keyEncryptionKey encryptionKey stateBytes,
      env.unmarshalBlob data = some blob ∧
      env.scryptKey (stringBytes passphrase) blob.Salt 32768 8 1 32 = some keyEncryptionKey ∧
      env.decrypt keyEncryptionKey blob.EncryptionKey blob.KeyNonce = some encryptionKey ∧
      env.decrypt encryptionKey blob.EncryptedData blob.DataNonce = some stateBytes ∧
      env.unmarshalConfig stateBytes = some cfg := by
  cases hblob : env.unmarshalBlob data with
  | none => simp [DecryptWithPassphrase, hblob] at h
  | some blob =>
    cases hkdf : env.scryptKey (stringBytes passphrase) blob.Salt 32768 8 1 32 with
    | none => simp [DecryptWithPassphrase, decryptPassphraseBlob, hblob, hkdf] at h
    | some kek =>
      rw [decryptWithPassphrase_eq env data passphrase blob kek hblob hkdf] at h
      cases hd1 : env.decrypt kek blob.EncryptionKey blob.KeyNonce with
      | none => simp [hd1] at h
      | some key =>
        cases hd2 : env.decrypt key blob.EncryptedData blob.DataNonce with
        | none => simp [hd1, hd2] at h
        | some stateBytes =>
          cases hc : env.unmarshalConfig stateBytes with
          | none => simp [hd1, hd2, hc] at h
          | some state =>
            simp only [hd1, hd2, hc, GoResult.ok.injEq] at h
            subst h
            exact ⟨blob, kek, key, stateBytes, rfl, hkdf, hd1, hd2, hc⟩

/-- C17: save/load round trip.  For every config, passphrase and choice of
random salt, data key and nonces, when the libraries encode, derive and
encrypt, `EncryptWithPassphrase` returns a blob; assuming that `decrypt`
inverts the two encryptions made and that JSON decoding inverts the two JSON
encodings made, `DecryptWithPassphrase` of that blob under the same
passphrase succeeds and returns a config equal to the one saved, in
particular with the same authentication counter. -/
theorem C17_save_load_round_trip {ρ : Type} (env : StateEnv ρ) (cfg : FIDODeviceConfig)
    (passphrase : String) (r r1 r2 r3 r4 : ρ)
    (stateBytes salt keyEncryptionKey encryptionKey encryptedKey keyNonce encryptedData dataNonce
      output : Bytes)
    (hjson : env.marshalConfig cfg = some stateBytes)
    (hsalt : env.randomBytes 16 r = (salt, r1))
    (hkdf : env.scryptKey (stringBytes passphrase) salt 32768 8 1 32 = some keyEncryptionKey)
    (hkey : env.randomBytes 32 r1 = (encryptionKey, r2))
    (henc1 : env.encrypt keyEncryptionKey encryptionKey r2 = (some (encryptedKey, keyNonce), r3))
    (henc2 : env.encrypt encryptionKey stateBytes r3 = (some (encryptedData, dataNonce), r4))
    (hout : env.marshalBlob ⟨salt, encryptedKey, keyNonce, encryptedData, dataNonce⟩
      = some output)
    (hdec1 : env.decrypt keyEncryptionKey encryptedKey keyNonce = some encryptionKey)
    (hdec2 : env.decrypt encryptionKey encryptedData dataNonce = some stateBytes)
    (hunblob : env.unmarshalBlob output
      = some ⟨salt, encryptedKey, keyNonce, encryptedData, dataNonce⟩)
    (hunjson : env.unmarshalConfig stateBytes = some cfg) :
    EncryptWithPassphrase env cfg passphrase r = (GoResult.ok output, r4) ∧
    DecryptWithPassphrase env output passphrase = GoResult.ok cfg ∧
    (∀ loaded, DecryptWithPassphrase env output passphrase = GoResult.ok loaded →
      loaded = cfg ∧ loaded.AuthenticationCounter = cfg.AuthenticationCounter) := by
  have hsave : EncryptWithPassphrase env cfg passphrase r = (GoResult.ok output, r4) := by
    simp [EncryptWithPassphrase, encryptPassphraseBlob, hjson, hsalt, hkdf, hkey, henc1, henc2,
      hout]
  have hload : DecryptWithPassphrase env output passphrase = GoResult.ok cfg := by
    rw [decryptWithPassphrase_eq env output passphrase _ keyEncryptionKey hunblob hkdf]
    simp [hdec1, hdec2, hunjson]
  refine ⟨hsave, hload, ?_⟩
  intro loaded h
  rw [hload] at h
  simp only [GoResult.ok.injEq] at h
  subst h
  exact ⟨rfl, rfl⟩

set_option maxRecDepth 100000 in
/-- C17 at `demoConfig` (authentication counter 41), passphrase `pw`, random
state 3. -/
theorem C17_save_load_round_trip_witness :
    demoStateEnv.marshalConfig demoConfig = some [0, 0, 0, 41, 1, 2, 3] ∧
    demoStateEnv.decrypt (List.replicate 32 23) (224 :: 5 :: List.replicate 32 4) [5]
      = some (List.replicate 32 4) ∧
    demoStateEnv.decrypt (List.replicate 32 4) [128, 6, 0, 0, 0, 41, 1, 2, 3] [6]
      = some [0, 0, 0, 41, 1, 2, 3] ∧
    demoStateEnv.unmarshalBlob demoSaved
      = some ⟨List.replicate 16 3, 224 :: 5 :: List.replicate 32 4, [5],
          [128, 6, 0, 0, 0, 41, 1, 2, 3], [6]⟩ ∧
    demoStateEnv.unmarshalConfig [0, 0, 0, 41, 1, 2, 3] = some demoConfig ∧
    EncryptWithPassphrase demoStateEnv demoConfig "pw" 3 = (GoResult.ok demoSaved, 7) ∧
    DecryptWithPassphrase demoStateEnv demoSaved "pw" = GoResult.ok demoConfig :=
  have h := C17_save_load_round_trip demoStateEnv demoConfig "pw" 3 4 5 6 7
    [0, 0, 0, 41, 1, 2, 3] (List.replicate 16 3) (List.replicate 32 23) (List.replicate 32 4)
    (224 :: 5 :: List.replicate 32 4) [5] [128, 6, 0, 0, 0, 41, 1, 2, 3] [6] demoSaved
    (by decide) (by decide) (by decide) (by decide) (by decide) (by decide) (by decide)
    (by decide) (by decide) (by decide) (by decide)
  ⟨by decide, by decide, by decide, by decide, by decide, h.1, h.2.1⟩

/-- C18: `DecryptWithPassphrase` never falls back.  For every input and
passphrase, if the decryption of the data key under the scrypt-derived key
fails, or the decryption of the data under the unwrapped key fails, it
returns an error and no config; it returns a config only when both
decryptions and both JSON decodings succeed. -/
theorem C18_decrypt_never_falls_back {ρ : Type} (env : StateEnv ρ) (data : Bytes)
    (passphrase : String) :
    (∀ blob keyEncryptionKey, env.unmarshalBlob data = some blob →
      env.scryptKey (stringBytes passphrase) blob.Salt 32768 8 1 32 = some keyEncryptionKey →
      env.decrypt keyEncryptionKey blob.EncryptionKey blob.KeyNonce = none →
      DecryptWithPassphrase env data passphrase
        = GoResult.error ["Could not decrypt data", "Could not decrypt encryption key"]) ∧
    (∀ blob keyEncryptionKey encryptionKey, env.unmarshalBlob data = some blob →
      env.scryptKey (stringBytes passphrase) blob.Salt 32768 8 1 32 = some keyEncryptionKey →
      env.decrypt keyEncryptionKey blob.EncryptionKey blob.KeyNonce = some encryptionKey →
      env.decrypt encryptionKey blob.EncryptedData blob.DataNonce = none →
      DecryptWithPassphrase env data passphrase
        = GoResult.error ["Could not decrypt data", "Could not decrypt data"]) ∧
    (∀ cfg, DecryptWithPassphrase env data passphrase = GoResult.ok cfg →
      ∃ blob keyEncryptionKey encryptionKey stateBytes,
        env.unmarshalBlob data = some blob ∧
        env.scryptKey (stringBytes passphrase) blob.Salt 32768 8 1 32 = some keyEncryptionKey ∧
        env.decrypt keyEncryptionKey blob.EncryptionKey blob.KeyNonce = some encryptionKey ∧
        env.decrypt encryptionKey blob.EncryptedData blob.DataNonce = some stateBytes ∧
        env.unmarshalConfig stateBytes = some cfg) := by
  refine ⟨?_, ?_, ?_⟩
  · intro blob kek hblob hkdf hd1
    rw [decryptWithPassphrase_eq env data passphrase blob kek hblob hkdf, hd1]
  · intro blob kek key hblob hkdf hd1 hd2
    rw [decryptWithPassphrase_eq env data passphrase blob kek hblob hkdf, hd1]
    simp only [hd2]
  · intro cfg h
    exact decryptWithPassphrase_ok env data passphrase cfg h

set_option maxRecDepth 100000 in
/-- C18 at the saved blob opened with the wrong passphrase `pv` (the data
key does not unwrap), at the blob with a changed data nonce (the data does
not decrypt), and at the intact blob. -/
theorem C18_decrypt_never_falls_back_witness :
    demoStateEnv.unmarshalBlob demoSaved
      = some ⟨List.replicate 16 3, 224 :: 5 :: List.replicate 32 4, [5],
          [128, 6, 0, 0, 0, 41, 1, 2, 3], [6]⟩ ∧
    demoStateEnv.scryptKey (stringBytes "pv") (List.replicate 16 3) 32768 8 1 32
      = some (List.replicate 32 22) ∧
    demoStateEnv.decrypt (List.replicate 32 22) (224 :: 5 :: List.replicate 32 4) [5] = none ∧
    DecryptWithPassphrase demoStateEnv demoSaved "pv"
      = GoResult.error ["Could not decrypt data", "Could not decrypt encryption key"] ∧
    demoStateEnv.unmarshalBlob demoSavedTampered
      = some ⟨List.replicate 16 3, 224 :: 5 :: List.replicate 32 4, [5],
          [128, 6, 0, 0, 0, 41, 1, 2, 3], [7]⟩ ∧
    demoStateEnv.decrypt (List.replicate 32 4) [128, 6, 0, 0, 0, 41, 1, 2, 3] [7] = none ∧
    DecryptWithPassphrase demoStateEnv demoSavedTampered "pw"
      = GoResult.error ["Could not decrypt data", "Could not decrypt data"] ∧
    DecryptWithPassphrase demoStateEnv demoSaved "pw" = GoResult.ok demoConfig ∧
    (∃ blob keyEncryptionKey encryptionKey stateBytes,
        demoStateEnv.unmarshalBlob demoSaved = some blob ∧
        demoStateEnv.scryptKey (stringBytes "pw") blob.Salt 32768 8 1 32
          = some keyEncryptionKey ∧
        demoStateEnv.decrypt keyEncryptionKey blob.EncryptionKey blob.KeyNonce
          = some encryptionKey ∧
        demoStateEnv.decrypt encryptionKey blob.EncryptedData blob.DataNonce = some stateBytes ∧
        demoStateEnv.unmarshalConfig stateBytes = some demoConfig) :=
  ⟨by decide, by decide, by decide,
   (C18_decrypt_never_falls_back demoStateEnv demoSaved "pv").1
     ⟨List.replicate 16 3, 224 :: 5 :: List.replicate 32 4, [5],
       [128, 6, 0, 0, 0, 41, 1, 2, 3], [6]⟩
     (List.replicate 32 22) (by decide) (by decide) (by decide),
   by decide, by decide,
   (C18_decrypt_never_falls_back demoStateEnv demoSavedTampered "pw").2.1
     ⟨List.replicate 16 3, 224 :: 5 :: List.replicate 32 4, [5],
       [128, 6, 0, 0, 0, 41, 1, 2, 3], [7]⟩
     (List.replicate 32 23) (List.replicate 32 4) (by decide) (by decide) (by decide) (by decide),
   by decide,
   (C18_decrypt_never_falls_back demoStateEnv demoSaved "pw").2.2 demoConfig (by decide)⟩

/-- C19: for every CMD_UNLINK the server writes exactly one RET_UNLINK,
header then body, whose status is `-ECONNRESET` (-104) if and only if
`removeWaitingRequest` returned true for the referenced sequence number, and
`-ENOENT` (-2) otherwise; the reply header carries the command RET_UNLINK
and the sequence number, device id and endpoint of the UNLINK message
itself. -/
theorem C19_unlink_reply {κ δ : Type} (env : UsbipEnv κ δ) (header : usbipMessageHeader)
    (w : UsbipWorld κ δ) (unlink : usbipCommandUnlinkBody) (conn1 : κ) (removed : Bool)
    (device1 : δ)
    (hread : env.readCommandUnlinkBody w.conn = some (unlink, conn1))
    (hremove : env.removeWaitingRequest unlink.UnlinkSequenceNumber w.device
      = (removed, device1)) :
    handleCommandUnlink env header w =
      some
        { conn := conn1
          written := w.written ++
            [Written.messageHeader
              { Command := env.usbip_COMMAND_RET_UNLINK
                SequenceNumber := header.SequenceNumber
                DeviceId := header.DeviceId
                Direction := env.usbip_DIR_OUT
                Endpoint := header.Endpoint },
             Written.returnUnlinkBody
              { Status := if removed = true then -104 else -2
                Padding := List.replicate 24 0 }]
          device := device1 } ∧
    ((if removed = true then (-104 : Int) else -2) = -104 ↔ removed = true) ∧
    ((if removed = true then (-104 : Int) else -2) = -2 ↔ removed = false) := by
  refine ⟨?_, ?_, ?_⟩
  · unfold handleCommandUnlink
    simp only [hread, hremove, ECONNRESET, ENOENT]
  · cases removed <;> simp
  · cases removed <;> simp

/-- C19 at an UNLINK of the parked request 7 and of the request 5, which is
not parked, through one turn of the command loop. -/
theorem C19_unlink_reply_witness :
    demoUsbipEnv.readCommandUnlinkBody [7] = some (⟨7⟩, []) ∧
    demoUsbipEnv.removeWaitingRequest 7 [7, 8] = (true, [8]) ∧
    handleCommandUnlink demoUsbipEnv ⟨2, 9, 1, 0, 0⟩ ⟨[7], [], [7, 8]⟩ =
      some ⟨[], [Written.messageHeader ⟨4, 9, 1, 0, 0⟩,
        Written.returnUnlinkBody ⟨-104, List.replicate 24 0⟩], [8]⟩ ∧
    handleCommandsStep demoUsbipEnv ⟨[2, 9, 1, 0, 0, 5], [], [7, 8]⟩ =
      some ⟨[], [Written.messageHeader ⟨4, 9, 1, 0, 0⟩,
        Written.returnUnlinkBody ⟨-2, List.replicate 24 0⟩], [7, 8]⟩ :=
  ⟨rfl, by decide,
   (C19_unlink_reply demoUsbipEnv ⟨2, 9, 1, 0, 0⟩ ⟨[7], [], [7, 8]⟩ ⟨7⟩ [] true [8] rfl
     (by decide)).1,
   by decide⟩

/-- C20: for every CMD_SUBMIT header and body, each invocation of the
`onReturn` callback writes header ++ body ++ tail: the header has the
command RET_SUBMIT and the sequence number, device id and endpoint of the
CMD_SUBMIT, the body has status 0 and an actual length equal to the length
of the transfer buffer, which is the request's transfer buffer length, and
the tail is the transfer buffer if the direction of the request is IN and
empty if it is OUT.  That callback is what `handleCommandSubmit` hands to the
device. -/
theorem C20_return_submit {κ δ : Type} (env : UsbipEnv κ δ) (header : usbipMessageHeader)
    (command : usbipCommandSubmitBody) (transferBuffer : Bytes)
    (hlen : transferBuffer.length = command.TransferBufferLength)
    (h32 : command.TransferBufferLength < 2 ^ 32)
    (hdir : env.usbip_DIR_IN ≠ env.usbip_DIR_OUT) :
    onReturnSubmit env header transferBuffer =
      [Written.messageHeader
        { Command := env.usbip_COMMAND_RET_SUBMIT
          SequenceNumber := header.SequenceNumber
          DeviceId := header.DeviceId
          Direction := env.usbip_DIR_OUT
          Endpoint := header.Endpoint },
       Written.returnSubmitBody
        { Status := 0
          ActualLength := command.TransferBufferLength
          StartFrame := 0
          NumberOfPackets := 0
          ErrorCount := 0
          Padding := 0 }] ++
      (if header.Direction = env.usbip_DIR_IN then [Written.buffer transferBuffer] else []) ∧
    (header.Direction = env.usbip_DIR_OUT →
      (if header.Direction = env.usbip_DIR_IN then [Written.buffer transferBuffer] else []) = []) ∧
    (∀ (w : UsbipWorld κ δ) (conn1 conn2 : κ) (buffer : Bytes),
      env.readCommandSubmitBody w.conn = some (command, conn1) →
      (if header.Direction = env.usbip_DIR_OUT ∧ command.TransferBufferLength > 0 then
          env.connRead (List.replicate command.TransferBufferLength 0) conn1
        else some (List.replicate command.TransferBufferLength 0, conn1))
        = some (buffer, conn2) →
      handleCommandSubmit env header w =
        some (env.deviceHandleMessage header.SequenceNumber (onReturnSubmit env header)
          header.Endpoint (env.setup command) buffer { w with conn := conn2 })) := by
  refine ⟨?_, ?_, ?_⟩
  · unfold onReturnSubmit
    simp only [hlen, Nat.mod_eq_of_lt h32]
  · intro hout
    rw [hout, if_neg (Ne.symm hdir)]
  · intro w conn1 conn2 buffer hread hafter
    unfold handleCommandSubmit
    simp only [hread, hafter]

/-- C20 at an IN request for 3 bytes on endpoint 1 and an OUT request of 3
bytes on endpoint 2, through one turn of the command loop with a device that
completes at once. -/
theorem C20_return_submit_witness :
    ([0xAB, 0xAB, 0xAB] : Bytes).length
      = (⟨0, 3, 0, 0, 0, List.replicate 8 0⟩ : usbipCommandSubmitBody).TransferBufferLength ∧
    (⟨0, 3, 0, 0, 0, List.replicate 8 0⟩ : usbipCommandSubmitBody).TransferBufferLength
      < 2 ^ 32 ∧
    demoUsbipEnv.usbip_DIR_IN ≠ demoUsbipEnv.usbip_DIR_OUT ∧
    onReturnSubmit demoUsbipEnv ⟨1, 9, 1, 1, 1⟩ [0xAB, 0xAB, 0xAB] =
      [Written.messageHeader ⟨3, 9, 1, 0, 1⟩, Written.returnSubmitBody ⟨0, 3, 0, 0, 0, 0⟩,
        Written.buffer [0xAB, 0xAB, 0xAB]] ∧
    handleCommandsStep demoUsbipEnv ⟨[1, 9, 1, 1, 1, 0, 3], [], [7, 8]⟩ =
      some ⟨[], [Written.messageHeader ⟨3, 9, 1, 0, 1⟩,
        Written.returnSubmitBody ⟨0, 3, 0, 0, 0, 0⟩, Written.buffer [0xAB, 0xAB, 0xAB]],
        [7, 8]⟩ ∧
    handleCommandsStep demoUsbipEnv ⟨[1, 9, 1, 0, 2, 0, 3, 5, 6, 7], [], [7, 8]⟩ =
      some ⟨[], [Written.messageHeader ⟨3, 9, 1, 0, 2⟩,
        Written.returnSubmitBody ⟨0, 3, 0, 0, 0, 0⟩], [7, 8]⟩ :=
  ⟨rfl, by decide, by decide,
   (C20_return_submit demoUsbipEnv ⟨1, 9, 1, 1, 1⟩ ⟨0, 3, 0, 0, 0, List.replicate 8 0⟩
     [0xAB, 0xAB, 0xAB] rfl (by decide) (by decide)).1,
   by decide, by decide⟩

/-! ## Width of `big.Int.Bytes` -/

theorem bigIntBytesAux_length_ge (fuel : Nat) :
    ∀ (n : Nat) (acc : Bytes), acc.length ≤ (bigIntBytesAux fuel n acc).length := by
  induction fuel with
  | zero => intro n acc; simp [bigIntBytesAux]
  | succ fuel ih =>
    intro n acc
    unfold bigIntBytesAux
    by_cases h0 : n = 0
    · simp [h0]
    · rw [if_neg h0]
      have := ih (n / 256) (n % 256 :: acc)
      simp only [List.length_cons] at this
      omega

theorem bigIntBytesAux_length_le (fuel : Nat) :
    ∀ (n : Nat) (acc : Bytes) (k : Nat), n ≤ fuel →
      ((bigIntBytesAux fuel n acc).length ≤ acc.length + k ↔ n < 256 ^ k) := by
  induction fuel with
  | zero =>
    intro n acc k hn
    have : n = 0 := by omega
    subst this
    simp [bigIntBytesAux]
  | succ fuel ih =>
    intro n acc k hn
    unfold bigIntBytesAux
    by_cases h0 : n = 0
    · subst h0; simp
    · rw [if_neg h0]
      have hle : n / 256 ≤ fuel := by omega
      cases k with
      | zero =>
        have hge := bigIntBytesAux_length_ge fuel (n / 256) (n % 256 :: acc)
        simp only [List.length_cons] at hge
        constructor
        · intro h; omega
        · intro h; simp at h; exact absurd h h0
      | succ k =>
        have := ih (n / 256) (n % 256 :: acc) k hle
        simp only [List.length_cons] at this
        rw [show acc.length + (k + 1) = acc.length + 1 + k by omega, this, pow_succ]
        exact Nat.div_lt_iff_lt_mul (by decide)

/-- The bytes of `big.Int.Bytes` number at most `k` exactly when the value
is below `256 ^ k`. -/
theorem bigIntBytes_length_le (n k : Nat) : (bigIntBytes n).length ≤ k ↔ n < 256 ^ k := by
  have := bigIntBytesAux_length_le n n [] k (Nat.le_refl n)
  simpa [bigIntBytes] using this

set_option maxRecDepth 100000 in
/-- C21: the claim that the X and Y byte strings under keys -2 and -3 are
always 32 bytes long fails on the code.  For the P-256 public key of the
private scalar 379, a point of the curve whose X is below `2 ^ 248`,
`ctapEncodeKeyAsCOSE` puts 31 bytes under key -2 (head `58 1F`) and 32 bytes
under key -3 (head `58 20`), while `elliptic.Marshal`, used for the same kind
of key in `handleU2FRegister`, writes both coordinates in 32 bytes.  In
general the bytes of a coordinate number 31 or fewer exactly when it is
below `256 ^ 31`. -/
theorem C21_cose_coordinate_width :
    onP256 shortXKey ∧
    (bigIntBytes shortXKey.X).length = 31 ∧
    (bigIntBytes shortXKey.Y).length = 32 ∧
    ctapEncodeKeyAsCOSE cborEnv shortXKey =
      some ([0xA5, 0x01, 0x02, 0x03, 0x26, 0x20, 0x01, 0x21, 0x58, 0x1F] ++
        bigIntBytes shortXKey.X ++ [0x22, 0x58, 0x20] ++ bigIntBytes shortXKey.Y) ∧
    ellipticMarshal shortXKey =
      some (4 :: ((0 :: bigIntBytes shortXKey.X) ++ bigIntBytes shortXKey.Y)) ∧
    (∀ n, (bigIntBytes n).length ≤ 31 ↔ n < 256 ^ 31) ∧
    (∀ n, (bigIntBytes n).length ≤ 32 ↔ n < 256 ^ 32) := by
  refine ⟨?_, by decide, by decide, by decide, by decide, ?_, ?_⟩
  · unfold onP256
    decide
  · intro n
    exact bigIntBytes_length_le n 31
  · intro n
    exact bigIntBytes_length_le n 32

/-- C22: the AUTHENTICATE control byte is only compared with `07`.  For
every P1 other than `07`, not just `03` and `08`, and every valid key handle
for the request's application, `handleU2FAuthenticate` advances the
authentication counter exactly once, signs
`application ++ 01 ++ BE32(c) ++ challenge` with the handle's key, and
returns `01 ++ BE32(c) ++ sig ++ 90 00`: the user-presence byte is `01` and
the reply ends in `90 00`. -/
theorem C22_authenticate_any_control {σ : Type} (env : Env σ) (header : U2FMessageHeader)
    (challenge application keyHandle encodedPrivateKey signature : Bytes)
    (privateKey : PrivateKey) (counter : Nat) (s s1 s2 : σ)
    (hc : challenge.length = 32) (ha : application.length = 32)
    (hp1 : header.Param1 ≠ 0x07)
    (hopen : (env.openKeyHandle s keyHandle).PrivateKey = some encodedPrivateKey)
    (happ : (env.openKeyHandle s keyHandle).ApplicationID = application)
    (hparse : env.parseECPrivateKey encodedPrivateKey = some privateKey)
    (hctr : env.newAuthenticationCounterId s = (counter, s1))
    (hsign : env.sign privateKey (application ++ [1] ++ toBE 4 counter ++ challenge) s1
      = (signature, s2)) :
    handleU2FAuthenticate env header (challenge ++ application ++ keyHandle.length :: keyHandle) s
      = some ([1] ++ toBE 4 counter ++ signature ++ [0x90, 0x00], s2) ∧
    ([1] ++ toBE 4 counter ++ signature ++ [0x90, 0x00]).head? = some 0x01 ∧
    ([1] ++ toBE 4 counter ++ signature ++ [0x90, 0x00]).drop (5 + signature.length)
      = [0x90, 0x00] := by
  refine ⟨?_, rfl, ?_⟩
  · rw [authenticate_eq env header challenge application keyHandle s hc ha]
    simp only [hopen, happ, hparse, hctr, hsign, ne_eq, not_true_eq_false, if_false, hp1]
  · have hlen : ([1] ++ toBE 4 counter ++ signature).length = 5 + signature.length := by
      simp [toBE_length]; omega
    exact List.drop_left' hlen

set_option maxRecDepth 100000 in
/-- C22 at the handle of the seed scenario with P1 = `FF` and with P1 =
`00`: the counter goes from 41 to 42 and one signature is made. -/
theorem C22_authenticate_any_control_witness :
    demoChallenge.length = 32 ∧ demoApplication.length = 32 ∧
    (⟨0, 2, 0xFF, 0⟩ : U2FMessageHeader).Param1 ≠ 0x07 ∧
    (⟨0, 2, 0, 0⟩ : U2FMessageHeader).Param1 ≠ 0x07 ∧
    (demoEnv.openKeyHandle demoWorld demoKeyHandle).PrivateKey = some [5, 7, 9] ∧
    (demoEnv.openKeyHandle demoWorld demoKeyHandle).ApplicationID = demoApplication ∧
    demoEnv.parseECPrivateKey [5, 7, 9] = some ⟨⟨7, 9⟩, 5⟩ ∧
    demoEnv.newAuthenticationCounterId demoWorld
      = (42, { demoWorld with AuthenticationCounter := 42 }) ∧
    demoEnv.sign ⟨⟨7, 9⟩, 5⟩ (demoApplication ++ [1] ++ toBE 4 42 ++ demoChallenge)
        { demoWorld with AuthenticationCounter := 42 }
      = ([5, 69], { demoWorld with AuthenticationCounter := 42, Signatures := 1 }) ∧
    handleU2FAuthenticate demoEnv ⟨0, 2, 0xFF, 0⟩
        (demoChallenge ++ demoApplication ++ demoKeyHandle.length :: demoKeyHandle) demoWorld
      = some ([1] ++ toBE 4 42 ++ [5, 69] ++ [0x90, 0x00],
          { demoWorld with AuthenticationCounter := 42, Signatures := 1 }) ∧
    handleU2FAuthenticate demoEnv ⟨0, 2, 0, 0⟩
        (demoChallenge ++ demoApplication ++ demoKeyHandle.length :: demoKeyHandle) demoWorld
      = some ([1] ++ toBE 4 42 ++ [5, 69] ++ [0x90, 0x00],
          { demoWorld with AuthenticationCounter := 42, Signatures := 1 }) :=
  ⟨by decide, by decide, by decide, by decide, by decide, by decide, rfl, by decide, by decide,
   (C22_authenticate_any_control demoEnv ⟨0, 2, 0xFF, 0⟩ demoChallenge demoApplication
     demoKeyHandle [5, 7, 9] [5, 69] ⟨⟨7, 9⟩, 5⟩ 42 demoWorld
     { demoWorld with AuthenticationCounter := 42 }
     { demoWorld with AuthenticationCounter := 42, Signatures := 1 }
     (by decide) (by decide) (by decide) (by decide) (by decide) rfl (by decide) (by decide)).1,
   (C22_authenticate_any_control demoEnv ⟨0, 2, 0, 0⟩ demoChallenge demoApplication
     demoKeyHandle [5, 7, 9] [5, 69] ⟨⟨7, 9⟩, 5⟩ 42 demoWorld
     { demoWorld with AuthenticationCounter := 42 }
     { demoWorld with AuthenticationCounter := 42, Signatures := 1 }
     (by decide) (by decide) (by decide) (by decide) (by decide) rfl (by decide) (by decide)).1⟩

end VirtualFido
